import Mathlib

/-!
A shallow embedding of the core of src/main.c from the xf repository: the
per-line tokenizer (parse_main / parse_op), the style-state evaluator
(eval_line / eval_op), color and number parsing (parse_color, flex_strtof,
flex_strtoi), the button-press hit test, and the line-reader overflow check.

Modelling conventions:
- C float and double values are modelled as rationals; the NAN sentinel used
  for flex basis (and for unset flex item sizes) is modelled as Option.
- External collaborators (pango text shaping and font metrics, cairo image
  decoding, the CSS named-color table of pango_color_parse, the flex layout
  solver) are modelled as explicit oracle parameters bundled in Ext; the
  layout solver runs after evaluation and only fills in frames, so evaluated
  actions carry placeholder frames.
- The C library functions strtof, strtol and strtoul are modelled on the
  decimal and hexadecimal digit subsets actually exercised by the program;
  leading whitespace and signs are modelled for strtof and strtol, while
  exponents, hex floats, inf and nan spellings are outside the modelled
  subset.  Overflow saturation and the errno ERANGE flag are modelled.
- Fatal errors, which in the C program print a diagnostic and call exit(1),
  are modelled as an Except error value naming the error class.
-/

namespace Xf

/-- enum op_type from main.c (OP_LINE_DASH is commented out of the command
table in the source and unreachable, so it is omitted here). -/
inductive op_type
  | OP_OPEN | OP_CLOSE | OP_CA | OP_BG | OP_FG | OP_FONT | OP_DIR | OP_WRAP
  | OP_ELLIPSIZE | OP_JUSTIFY_CONTENT | OP_ALIGN_ITEMS | OP_ALIGN_SELF
  | OP_SHRINK | OP_ORDER | OP_GROW | OP_BASIS
  | OP_LINE_CAP | OP_LINE_JOIN | OP_LINE_OFFSET | OP_LINE_WIDTH
  | OP_MITER_LIMIT | OP_IMG | OP_RULE | OP_MARKUP | OP_TEXT
deriving DecidableEq, Repr

/-- enum format from main.c. -/
inductive format
  | FMT_PDF | FMT_PNG | FMT_SVG | FMT_XCB
deriving DecidableEq, Repr

/-- The fatal error classes of the program (each is an exit(1) site in the
source, reached after printing a diagnostic). -/
inductive Err
  | SyntaxError
  | UnrecognizedCommandError
  | UnbalancedBraceError
  | InvalidNumberError
  | InvalidColorError
  | UnrecognizedEnumError
  | InvalidCombinationError
  | ResourceError
deriving DecidableEq, Repr

/-- struct rgba from main.c, four channel values stored as floats. -/
structure rgba where
  r : ℚ
  g : ℚ
  b : ℚ
  a : ℚ
deriving DecidableEq, Repr

/-- struct geom from main.c: frame coordinates contain the padding but not
the margins. -/
structure geom where
  x : ℚ
  y : ℚ
  w : ℚ
  h : ℚ
deriving DecidableEq, Repr

/-- struct outline from main.c (four sides plus the derived totals). -/
structure outline where
  t : ℚ
  r : ℚ
  b : ℚ
  l : ℚ
  w : ℚ
  h : ℚ
deriving DecidableEq, Repr

def outline0 : outline := { t := 0, r := 0, b := 0, l := 0, w := 0, h := 0 }

/-- flex_align from the flex layout library, as used by the source. -/
inductive flex_align
  | FLEX_ALIGN_AUTO | FLEX_ALIGN_STRETCH | FLEX_ALIGN_CENTER
  | FLEX_ALIGN_START | FLEX_ALIGN_END
  | FLEX_ALIGN_SPACE_BETWEEN | FLEX_ALIGN_SPACE_AROUND | FLEX_ALIGN_SPACE_EVENLY
deriving DecidableEq, Repr

/-- flex_direction from the flex layout library. -/
inductive flex_direction
  | FLEX_DIRECTION_ROW | FLEX_DIRECTION_ROW_REVERSE
  | FLEX_DIRECTION_COLUMN | FLEX_DIRECTION_COLUMN_REVERSE
deriving DecidableEq, Repr

/-- flex_wrap from the flex layout library. -/
inductive flex_wrap
  | FLEX_WRAP_NO_WRAP | FLEX_WRAP_WRAP | FLEX_WRAP_WRAP_REVERSE
deriving DecidableEq, Repr

/-- PangoEllipsizeMode, as used by the source. -/
inductive PangoEllipsizeMode
  | PANGO_ELLIPSIZE_NONE | PANGO_ELLIPSIZE_START
  | PANGO_ELLIPSIZE_MIDDLE | PANGO_ELLIPSIZE_END
deriving DecidableEq, Repr

/-- cairo_line_cap_t, as used by the source. -/
inductive cairo_line_cap_t
  | CAIRO_LINE_CAP_BUTT | CAIRO_LINE_CAP_ROUND | CAIRO_LINE_CAP_SQUARE
deriving DecidableEq, Repr

/-- cairo_line_join_t, as used by the source. -/
inductive cairo_line_join_t
  | CAIRO_LINE_JOIN_MITER | CAIRO_LINE_JOIN_ROUND | CAIRO_LINE_JOIN_BEVEL
deriving DecidableEq, Repr

/-- struct op from main.c: an op type plus its argument string.  For OP_OPEN,
OP_CLOSE and bare text spans the C code stores a pointer into the line buffer
as arg; the argument is meaningful only for commands and text, so for
OP_OPEN and OP_CLOSE the model stores the empty string. -/
structure op where
  type : op_type
  arg : String
deriving DecidableEq, Repr

/-- The union member of struct act: the kind tag together with the
kind-specific paint data resolved at evaluation time.  The cairo surface of
an image action is modelled by the file name it was decoded from. -/
inductive act_u
  | ACT_IMG (img : String)
  | ACT_RULE (fg : rgba) (line_cap : cairo_line_cap_t) (line_join : cairo_line_join_t)
      (line_offset : ℚ) (line_width : ℚ) (miter_limit : ℚ)
  | ACT_TEXT (desc : String) (e : PangoEllipsizeMode) (fg : rgba) (markup : Bool) (s : String)
deriving DecidableEq, Repr

/-- struct act from main.c.  The frame f and the outlines m and p are filled
in from the flex items only after the external layout solver has run; an act
as produced by evaluation carries placeholder zeros there. -/
structure act where
  f : geom
  m : outline
  p : outline
  bg : rgba
  ca_name : Option String
  u : act_u
deriving DecidableEq, Repr

/-! ## Hit testing (the IPC_BUTTON branch of main) -/

/-- inside() from main.c: whether point (x, y) lies in frame g, boundaries
included. -/
def inside (g : geom) (x y : ℚ) : Bool :=
  if x < g.x ∨ x > g.x + g.w then false
  else if y < g.y ∨ y > g.y + g.h then false
  else true

/-- The hit-testing loop of the IPC_BUTTON branch of main(): walk the action
list in creation order, skip actions with no clickable-area name, skip
actions whose frame does not contain the point, and report the name of every
remaining action.  The C loop has no break statement, so it does not stop at
the first match. -/
def button_press_reports : List act → ℚ → ℚ → List String
  | [], _, _ => []
  | a :: rest, x, y =>
    match a.ca_name with
    | none => button_press_reports rest x y
    | some nm =>
      if inside a.f x y then nm :: button_press_reports rest x y
      else button_press_reports rest x y

/-! ## The line-reader overflow check (parse_main) -/

def MAX_LINE_LEN : Nat := 8192

/-- The characters fgets(buf, n, stdin) stores from the incoming stream:
up to n - 1 characters, stopping after a newline. -/
def fgets_store : List Char → Nat → List Char
  | _, 0 => []
  | [], _ + 1 => []
  | c :: cs, n + 1 => if c = '\n' then [c] else c :: fgets_store cs n

/-- The overflow test of parse_main in main.c, performed after each fgets:
the source executes
  buf[sizeof buf - 1] = 'x';
  if (buf[sizeof buf - 1] == '\0' and buf[sizeof buf - 2] != '\n') ...
so the sentinel byte is stored and immediately tested in that order.  The
buffer is modelled as the stored characters, the terminating NUL written by
fgets, and arbitrary junk in the untouched tail. -/
def parse_main_overflow_check (input : List Char) (junk : Char) : Bool :=
  let stored := fgets_store input (MAX_LINE_LEN - 1)
  let buf := stored ++ Char.ofNat 0 :: List.replicate (MAX_LINE_LEN - 1 - stored.length) junk
  let buf2 := buf.set (MAX_LINE_LEN - 1) 'x'
  (buf2.getD (MAX_LINE_LEN - 1) junk == Char.ofNat 0)
    && (buf2.getD (MAX_LINE_LEN - 2) junk != '\n')

/-! ## Number parsing (flex_strtof, flex_strtoi, xf_strtod) -/

def INT_MAX : Int := 2 ^ 31 - 1
def INT_MIN : Int := -(2 ^ 31)
def LONG_MAX : Int := 2 ^ 63 - 1
def LONG_MIN : Int := -(2 ^ 63)
def ULONG_MAX : Nat := 2 ^ 64 - 1

/-- Value of a list of decimal digit characters. -/
def digits_val (ds : List Char) : Nat :=
  ds.foldl (fun a c => a * 10 + (c.toNat - 48)) 0

/-- Stand-in for FLT_MAX in the strtof model (the exact float limit is
irrelevant to the program: only saturation behaviour matters). -/
def FLT_MAX_MODEL : ℚ := 2 ^ 128

/-- Stand-in for HUGE_VALF, the saturated value strtof returns with
errno = ERANGE on overflow. -/
def HUGE_VALF_MODEL : ℚ := 2 ^ 129

/-- Model of the C library strtof on its decimal subset: optional leading
spaces, an optional sign, decimal digits with an optional fractional part.
Returns the value, the number of characters consumed (0 when no conversion
could be performed, in which case the C library leaves the end pointer at
the start of the string), and the ERANGE flag.  On overflow the value
saturates to plus or minus HUGE_VALF with ERANGE set, as in C. -/
def strtof_model (cs : List Char) : ℚ × Nat × Bool :=
  let sp := (cs.takeWhile (fun c => c = ' ')).length
  let rest0 := cs.dropWhile (fun c => c = ' ')
  let sgn : ℚ := match rest0 with
    | '-' :: _ => -1
    | _ => 1
  let slen : Nat := match rest0 with
    | '-' :: _ => 1
    | '+' :: _ => 1
    | _ => 0
  let rest1 : List Char := match rest0 with
    | '-' :: r => r
    | '+' :: r => r
    | r => r
  let ip := rest1.takeWhile Char.isDigit
  let rest2 := rest1.dropWhile Char.isDigit
  let fp : List Char := match rest2 with
    | '.' :: r => r.takeWhile Char.isDigit
    | _ => []
  let dlen : Nat := match rest2 with
    | '.' :: _ => 1
    | _ => 0
  if ip.isEmpty && fp.isEmpty then (0, 0, false)
  else
    let v : ℚ := sgn * ((digits_val ip : ℚ) + (digits_val fp : ℚ) / 10 ^ fp.length)
    let consumed := sp + slen + ip.length + (if dlen = 1 then 1 + fp.length else 0)
    if v > FLT_MAX_MODEL then (HUGE_VALF_MODEL, (consumed, true))
    else if v < -FLT_MAX_MODEL then (-HUGE_VALF_MODEL, (consumed, true))
    else (v, (consumed, false))

/-- flex_strtof from main.c.  The first component of the result is the parsed
value; the second records whether the invalid-number diagnostic was printed
(the source prints it when the argument is empty or not fully consumed, but
does not exit in that case).  The max bound none models INFINITY.  Exit
sites (ERANGE overflow and the range check) become errors. -/
def flex_strtof (s : String) (mn : ℚ) (mx : Option ℚ) : Except Err (ℚ × Bool) :=
  let cs := s.toList
  let r := strtof_model cs
  let x := r.1
  let diag := cs.isEmpty || r.2.1 != cs.length
  if x = HUGE_VALF_MODEL ∧ r.2.2 then .error .InvalidNumberError
  else if x < mn then .error .InvalidNumberError
  else
    match mx with
    | some m => if x > m then .error .InvalidNumberError else .ok (x, diag)
    | none => .ok (x, diag)

/-- Model of the C library strtol (base 10) on its decimal subset: optional
leading spaces, an optional sign, decimal digits.  Returns the value, the
number of characters consumed (0 when no conversion could be performed), and
the ERANGE flag; on overflow the value saturates to LONG_MAX or LONG_MIN. -/
def strtol_model (cs : List Char) : Int × Nat × Bool :=
  let sp := (cs.takeWhile (fun c => c = ' ')).length
  let rest0 := cs.dropWhile (fun c => c = ' ')
  let sgn : Int := match rest0 with
    | '-' :: _ => -1
    | _ => 1
  let slen : Nat := match rest0 with
    | '-' :: _ => 1
    | '+' :: _ => 1
    | _ => 0
  let rest1 : List Char := match rest0 with
    | '-' :: r => r
    | '+' :: r => r
    | r => r
  let ip := rest1.takeWhile Char.isDigit
  if ip.isEmpty then (0, 0, false)
  else
    let v : Int := sgn * (digits_val ip : Int)
    let consumed := sp + slen + ip.length
    if v > LONG_MAX then (LONG_MAX, (consumed, true))
    else if v < LONG_MIN then (LONG_MIN, (consumed, true))
    else (v, (consumed, false))

/-- flex_strtoi from main.c.  As with flex_strtof, the Bool component records
that the invalid-integer diagnostic was printed without exiting; the ERANGE
check and the combined range check are the exit sites. -/
def flex_strtoi (s : String) (mn mx : Int) : Except Err (Int × Bool) :=
  let cs := s.toList
  let r := strtol_model cs
  let l := r.1
  let diag := cs.isEmpty || r.2.1 != cs.length
  if (l = LONG_MIN ∨ l = LONG_MAX) ∧ r.2.2 then .error .InvalidNumberError
  else if l < INT_MIN ∨ l > INT_MAX ∨ l < mn ∨ l > mx then .error .InvalidNumberError
  else .ok (l, diag)

/-- xf_strtod from main.c: delegates to flex_strtof (the source comments that
this is accurate enough for its needs). -/
def xf_strtod (s : String) (mn : ℚ) (mx : Option ℚ) : Except Err (ℚ × Bool) :=
  flex_strtof s mn mx

/-! ## Color parsing (parse_color) -/

/-- The value of a hexadecimal digit character, if it is one. -/
def hex_val (c : Char) : Option Nat :=
  if 48 ≤ c.toNat ∧ c.toNat ≤ 57 then some (c.toNat - 48)
  else if 97 ≤ c.toNat ∧ c.toNat ≤ 102 then some (c.toNat - 87)
  else if 65 ≤ c.toNat ∧ c.toNat ≤ 70 then some (c.toNat - 55)
  else none

/-- Accumulating scan of leading hexadecimal digits: value and count. -/
def strtoul_hex_go : List Char → Nat → Nat → Nat × Nat
  | [], acc, k => (acc, k)
  | c :: cs, acc, k =>
    match hex_val c with
    | some d => strtoul_hex_go cs (acc * 16 + d) (k + 1)
    | none => (acc, k)

/-- Model of the C library strtoul(s, e, 16) on the hexadecimal digit
subset (leading whitespace, signs and the 0x prefix are outside the modelled
subset): consumes the longest prefix of hex digits, saturating to ULONG_MAX
on overflow as the C library does.  Returns the value and the number of
characters consumed. -/
def strtoul_hex (cs : List Char) : Nat × Nat :=
  let r := strtoul_hex_go cs 0 0
  (min r.1 ULONG_MAX, r.2)

/-- The rgba struct built by the case 8 return of parse_color:
  (n & 0xff000000) / (double) 0xff000000
and so on for the other channels.  Masking a byte field and dividing by the
mask constant equals extracting the byte and dividing by 255, which is the
form used here (n / 2^k % 256 equals (n & (0xff << k)) >> k for every n). -/
def rgba_of_packed (n : Nat) : rgba :=
  { r := ((n / 2 ^ 24 % 256 : ℕ) : ℚ) / 255,
    g := ((n / 2 ^ 16 % 256 : ℕ) : ℚ) / 255,
    b := ((n / 2 ^ 8 % 256 : ℕ) : ℚ) / 255,
    a := ((n % 256 : ℕ) : ℚ) / 255 }

/-- The case 3 nibble expansion of parse_color:
  (n & 0xf00) * 0x1100 + (n & 0xf0) * 0x110 + (n & 0xf) * 0x11
written with the masks expressed through division and remainder. -/
def expand3 (n : Nat) : Nat :=
  (n / 256 % 16 * 256) * 0x1100 + (n / 16 % 16 * 16) * 0x110 + n % 16 * 0x11

/-- parse_color from main.c.  Strings not starting with a hash are resolved
through pango_color_parse, modelled by the named oracle returning the three
16-bit channels of a CSS named color (or none when unrecognized, the
perror-and-exit path).  Hash literals scan hex digits with strtoul; a value
equal to ULONG_MAX or trailing unconsumed characters are rejected, then the
digit count selects the 3, 6 or 8 digit interpretation, anything else being
rejected. -/
def parse_color (named : String → Option (Nat × Nat × Nat)) (s : String) :
    Except Err rgba :=
  match s.toList with
  | '#' :: rest =>
    let r := strtoul_hex rest
    let n := r.1
    let k := r.2
    if n = ULONG_MAX ∨ k ≠ rest.length then .error .InvalidColorError
    else if k = 3 then .ok (rgba_of_packed (expand3 n * 256 + 255))
    else if k = 6 then .ok (rgba_of_packed (n * 256 + 255))
    else if k = 8 then .ok (rgba_of_packed n)
    else .error .InvalidColorError
  | _ =>
    match named s with
    | some c =>
      .ok { r := (c.1 : ℚ) / 65535, g := (c.2.1 : ℚ) / 65535,
            b := (c.2.2 : ℚ) / 65535, a := 1 }
    | none => .error .InvalidColorError

/-! ## Name lookup tables (ellipsize_name, dir_name, wrap_name,
justify_content_name, align_name, line_cap_name, line_join_name, op_name) -/

/-- ellipsize_name from main.c. -/
def ellipsize_name (name : String) : Except Err PangoEllipsizeMode :=
  match ([("none", PangoEllipsizeMode.PANGO_ELLIPSIZE_NONE),
          ("start", PangoEllipsizeMode.PANGO_ELLIPSIZE_START),
          ("middle", PangoEllipsizeMode.PANGO_ELLIPSIZE_MIDDLE),
          ("end", PangoEllipsizeMode.PANGO_ELLIPSIZE_END)].find?
            (fun p => p.1 == name)) with
  | some p => .ok p.2
  | none => .error .UnrecognizedEnumError

/-- dir_name from main.c. -/
def dir_name (name : String) : Except Err flex_direction :=
  match ([("row", flex_direction.FLEX_DIRECTION_ROW),
          ("row-rev", flex_direction.FLEX_DIRECTION_ROW_REVERSE),
          ("col", flex_direction.FLEX_DIRECTION_COLUMN),
          ("col-rev", flex_direction.FLEX_DIRECTION_COLUMN_REVERSE)].find?
            (fun p => p.1 == name)) with
  | some p => .ok p.2
  | none => .error .UnrecognizedEnumError

/-- wrap_name from main.c. -/
def wrap_name (name : String) : Except Err flex_wrap :=
  match ([("no-wrap", flex_wrap.FLEX_WRAP_NO_WRAP),
          ("wrap", flex_wrap.FLEX_WRAP_WRAP),
          ("wrap-rev", flex_wrap.FLEX_WRAP_WRAP_REVERSE)].find?
            (fun p => p.1 == name)) with
  | some p => .ok p.2
  | none => .error .UnrecognizedEnumError

/-- justify_content_name from main.c. -/
def justify_content_name (name : String) : Except Err flex_align :=
  match ([("start", flex_align.FLEX_ALIGN_START),
          ("end", flex_align.FLEX_ALIGN_END),
          ("center", flex_align.FLEX_ALIGN_CENTER),
          ("space-between", flex_align.FLEX_ALIGN_SPACE_BETWEEN),
          ("space-around", flex_align.FLEX_ALIGN_SPACE_AROUND),
          ("space-evenly", flex_align.FLEX_ALIGN_SPACE_EVENLY)].find?
            (fun p => p.1 == name)) with
  | some p => .ok p.2
  | none => .error .UnrecognizedEnumError

/-- align_name from main.c (used for both align-items and align-self). -/
def align_name (name : String) : Except Err flex_align :=
  match ([("auto", flex_align.FLEX_ALIGN_AUTO),
          ("start", flex_align.FLEX_ALIGN_START),
          ("end", flex_align.FLEX_ALIGN_END),
          ("center", flex_align.FLEX_ALIGN_CENTER),
          ("stretch", flex_align.FLEX_ALIGN_STRETCH)].find?
            (fun p => p.1 == name)) with
  | some p => .ok p.2
  | none => .error .UnrecognizedEnumError

/-- line_cap_name from main.c. -/
def line_cap_name (name : String) : Except Err cairo_line_cap_t :=
  match ([("butt", cairo_line_cap_t.CAIRO_LINE_CAP_BUTT),
          ("round", cairo_line_cap_t.CAIRO_LINE_CAP_ROUND),
          ("square", cairo_line_cap_t.CAIRO_LINE_CAP_SQUARE)].find?
            (fun p => p.1 == name)) with
  | some p => .ok p.2
  | none => .error .UnrecognizedEnumError

/-- line_join_name from main.c. -/
def line_join_name (name : String) : Except Err cairo_line_join_t :=
  match ([("miter", cairo_line_join_t.CAIRO_LINE_JOIN_MITER),
          ("round", cairo_line_join_t.CAIRO_LINE_JOIN_ROUND),
          ("bevel", cairo_line_join_t.CAIRO_LINE_JOIN_BEVEL)].find?
            (fun p => p.1 == name)) with
  | some p => .ok p.2
  | none => .error .UnrecognizedEnumError

/-- The command table of op_name from main.c, in source order (line-dash is
commented out in the source). -/
def op_name_table : List (String × op_type) :=
  [("ca", .OP_CA), ("bg", .OP_BG), ("fg", .OP_FG), ("font", .OP_FONT),
   ("dir", .OP_DIR), ("wrap", .OP_WRAP),
   ("ellipsize", .OP_ELLIPSIZE), ("justify-content", .OP_JUSTIFY_CONTENT),
   ("align-items", .OP_ALIGN_ITEMS), ("align-self", .OP_ALIGN_SELF),
   ("grow", .OP_GROW), ("shrink", .OP_SHRINK), ("order", .OP_ORDER),
   ("basis", .OP_BASIS),
   ("line-cap", .OP_LINE_CAP), ("line-join", .OP_LINE_JOIN),
   ("line-offset", .OP_LINE_OFFSET), ("line-width", .OP_LINE_WIDTH),
   ("miter-limit", .OP_MITER_LIMIT),
   ("img", .OP_IMG), ("rule", .OP_RULE), ("markup", .OP_MARKUP),
   ("text", .OP_TEXT)]

/-- op_name from main.c: unknown command names are a fatal error. -/
def op_name (name : String) : Except Err op_type :=
  match op_name_table.find? (fun p => p.1 == name) with
  | some p => .ok p.2
  | none => .error .UnrecognizedCommandError

/-- ext from main.c: file format from the extension after the last dot of
the file name; a missing or unrecognized extension is fatal. -/
def ext_fmt (file : String) : Except Err format :=
  let cs := file.toList
  if '.' ∈ cs then
    let e := ((cs.reverse.takeWhile (fun c => c ≠ '.')).reverse).asString
    if e = "pdf" then .ok .FMT_PDF
    else if e = "png" then .ok .FMT_PNG
    else if e = "svg" then .ok .FMT_SVG
    else .error .ResourceError
  else .error .ResourceError

/-! ## The tokenizer (parse_main calling parse_op, per line) -/

/-- The scanning mode of the tokenizer: accumulating a text span (the span
characters are kept reversed), scanning a command name after a caret, or
scanning a command argument after the opening brace of a command. -/
inductive tok_mode
  | text_span (pend : List Char)
  | cmd_name (acc : List Char)
  | cmd_arg (t : op_type) (acc : List Char)

/-- The per-line tokenizing loop of parse_main in main.c, with the character
dispatch of parse_op.  Walks the line left to right:
- end of buffer (the NUL in C) stops, dropping any pending text span, since
  parse_op returns NULL before the caller emits the span;
- a newline is rewritten to NUL and the pending span (possibly empty) is
  emitted as a text op, after which scanning stops;
- braces and carets first flush a pending nonempty text span (the C code
  re-scans the structural character on the next parse_op call, which this
  single pass performs directly), then an open or close op is emitted, or
  command-name scanning begins;
- form feed, tab and vertical tab are normalized to one space inside text;
- a command name runs to the first open brace (reaching end of line instead
  is a fatal syntax error) and is looked up with op_name; its argument runs
  to the first close brace (end of line again being a fatal syntax error);
- any other character extends the text span. -/
def parse_ops : List Char → tok_mode → Except Err (List op)
  | [], .text_span _ => .ok []
  | [], .cmd_name _ => .error .SyntaxError
  | [], .cmd_arg _ _ => .error .SyntaxError
  | c :: rest, .text_span pend =>
    if c = '\n' then .ok [{ type := .OP_TEXT, arg := pend.reverse.asString }]
    else if c = '{' then
      match parse_ops rest (.text_span []) with
      | .error e => .error e
      | .ok tl =>
        if pend.isEmpty then .ok ({ type := .OP_OPEN, arg := "" } :: tl)
        else .ok ({ type := .OP_TEXT, arg := pend.reverse.asString }
                    :: { type := .OP_OPEN, arg := "" } :: tl)
    else if c = '}' then
      match parse_ops rest (.text_span []) with
      | .error e => .error e
      | .ok tl =>
        if pend.isEmpty then .ok ({ type := .OP_CLOSE, arg := "" } :: tl)
        else .ok ({ type := .OP_TEXT, arg := pend.reverse.asString }
                    :: { type := .OP_CLOSE, arg := "" } :: tl)
    else if c = '^' then
      if pend.isEmpty then parse_ops rest (.cmd_name [])
      else
        match parse_ops rest (.cmd_name []) with
        | .error e => .error e
        | .ok tl => .ok ({ type := .OP_TEXT, arg := pend.reverse.asString } :: tl)
    else if c = Char.ofNat 12 ∨ c = '\t' ∨ c = Char.ofNat 11 then
      parse_ops rest (.text_span (' ' :: pend))
    else
      parse_ops rest (.text_span (c :: pend))
  | c :: rest, .cmd_name acc =>
    if c = '{' then
      match op_name acc.reverse.asString with
      | .error e => .error e
      | .ok t => parse_ops rest (.cmd_arg t [])
    else
      parse_ops rest (.cmd_name (c :: acc))
  | c :: rest, .cmd_arg t acc =>
    if c = '}' then
      match parse_ops rest (.text_span []) with
      | .error e => .error e
      | .ok tl => .ok ({ type := t, arg := acc.reverse.asString } :: tl)
    else
      parse_ops rest (.cmd_arg t (c :: acc))

/-- Tokenize one line (the contents fgets placed in the buffer, newline
included when one was read). -/
def tokenize (line : List Char) : Except Err (List op) :=
  parse_ops line (.text_span [])

/-! ## The evaluator (eval_line and eval_op) -/

/-- The flex item data of a container, as far as the evaluator touches it:
dimensions (none models an unset NAN dimension) and the container-level
style settable through commands.  The evaluator keeps a stack of these, the
head being the current container (the C code instead walks parent pointers
of the flex library). -/
structure flex_container where
  width : Option ℚ
  height : Option ℚ
  direction : flex_direction
  wrap : flex_wrap
  justify_content : flex_align
  align_items : flex_align
  align_content : flex_align
deriving DecidableEq, Repr

/-- The defaults of flex_item_new() for the fields tracked here, used for
child containers created by OP_OPEN (the C code sets only width and height
on them). -/
def flex_container_new (w h : Option ℚ) : flex_container :=
  { width := w, height := h,
    direction := .FLEX_DIRECTION_ROW, wrap := .FLEX_WRAP_NO_WRAP,
    justify_content := .FLEX_ALIGN_START, align_items := .FLEX_ALIGN_STRETCH,
    align_content := .FLEX_ALIGN_STRETCH }

/-- struct eval_state from main.c.  root is the container stack (head =
current container).  none for basis models the NAN auto sentinel. -/
structure eval_state where
  root : List flex_container
  margin : ℚ
  padding : ℚ
  fg : rgba
  bg : rgba
  align_self : flex_align
  grow : ℚ
  shrink : ℚ
  basis : Option ℚ
  line_cap : cairo_line_cap_t
  line_join : cairo_line_join_t
  line_offset : ℚ
  line_width : ℚ
  miter_limit : ℚ
  order : Int
  ca_name : Option String
  desc : String
  e : PangoEllipsizeMode
deriving DecidableEq, Repr

/-- The flex item created for one node, with the attribute values the
evaluator sets on it.  grow and shrink are none when never set (which the
loop skips for an item whose width is NAN); width and height are as set at
creation (padding included for leaves). -/
structure flex_item_model where
  is_container : Bool
  width : Option ℚ
  height : Option ℚ
  grow : Option ℚ
  shrink : Option ℚ
  order : Int
  basis : Option ℚ
  align_self : flex_align
  margin : ℚ
  padding : ℚ
deriving DecidableEq, Repr

/-- What eval_op hands back to the loop for a node-creating op: the flex
item dimensions it set, whether the node is a container, and the paint data
written into the act slot (none for containers, which get no act). -/
structure pending_item where
  is_container : Bool
  width : Option ℚ
  height : Option ℚ
  payload : Option act_u
deriving DecidableEq, Repr

/-- The external collaborators of the evaluator:
- text_size: pango layout measurement in op_text (markup flag, font
  description, ellipsize mode, string to ideal pixel width and height);
- rule_height: font ascent plus descent from the pango metrics in op_rule;
- img_size: cairo_image_surface dimensions of a decoded PNG in op_img;
- named_color: the CSS color table behind pango_color_parse, giving the
  three 16-bit channels. -/
structure Ext where
  text_size : Bool → String → PangoEllipsizeMode → String → ℚ × ℚ
  rule_height : String → ℚ
  img_size : String → ℚ × ℚ
  named_color : String → Option (Nat × Nat × Nat)

/-- Apply a function to the head container of the stack (the current root),
as the dir, wrap, justify-content and align-items commands do in place. -/
def set_head (f : flex_container → flex_container) :
    List flex_container → List flex_container
  | [] => []
  | c :: cs => f c :: cs

/-- op_img from main.c: only png files are supported (ext recognizes pdf,
png and svg; op_img rejects everything but png), the decoded surface
dimensions plus twice the padding size the item. -/
def op_img (ext : Ext) (padding : ℚ) (file : String) : Except Err pending_item :=
  match ext_fmt file with
  | .error e => .error e
  | .ok .FMT_PNG =>
    let sz := ext.img_size file
    .ok { is_container := false,
          width := some (sz.1 + padding * 2),
          height := some (sz.2 + padding * 2),
          payload := some (.ACT_IMG file) }
  | .ok _ => .error .ResourceError

/-- op_rule from main.c: the act records the line style from the current
state; the item is a square of the font height (ascent plus descent) plus
twice the padding. -/
def op_rule (ext : Ext) (st : eval_state) : pending_item :=
  let hgt := ext.rule_height st.desc
  { is_container := false,
    width := some (hgt + st.padding * 2),
    height := some (hgt + st.padding * 2),
    payload := some (.ACT_RULE st.fg st.line_cap st.line_join
                       st.line_offset st.line_width st.miter_limit) }

/-- op_text from main.c (used for both markup and plain text, distinguished
by the pango setter passed in, modelled by the markup flag): the act records
the font, ellipsize mode, foreground and string; the item is sized from the
measured ideal text size plus twice the padding. -/
def op_text (ext : Ext) (st : eval_state) (markup : Bool) (s : String) :
    pending_item :=
  let sz := ext.text_size markup st.desc st.e s
  { is_container := false,
    width := some (sz.1 + st.padding * 2),
    height := some (sz.2 + st.padding * 2),
    payload := some (.ACT_TEXT st.desc st.e st.fg markup s) }

/-- eval_op from main.c: one op against the evaluator state.  Returns the
updated state and, for node-creating ops (open, img, rule, markup, text),
the pending item; style and sizing commands return none after mutating the
state or the current container.  All exit(1) sites become errors. -/
def eval_op (ext : Ext) (st : eval_state) (o : op) :
    Except Err (eval_state × Option pending_item) :=
  match o.type with
  | .OP_OPEN =>
    let w := match st.root with | c :: _ => c.width | [] => none
    let h := match st.root with | c :: _ => c.height | [] => none
    .ok (st, some { is_container := true, width := w, height := h, payload := none })
  | .OP_CLOSE =>
    match st.root with
    | _ :: c :: rest => .ok ({ st with root := c :: rest }, none)
    | _ => .error .UnbalancedBraceError
  | .OP_CA => .ok ({ st with ca_name := some o.arg }, none)
  | .OP_BG =>
    match parse_color ext.named_color o.arg with
    | .error e => .error e
    | .ok c => .ok ({ st with bg := c }, none)
  | .OP_FG =>
    match parse_color ext.named_color o.arg with
    | .error e => .error e
    | .ok c => .ok ({ st with fg := c }, none)
  | .OP_FONT => .ok ({ st with desc := o.arg }, none)
  | .OP_ELLIPSIZE =>
    match ellipsize_name o.arg with
    | .error e => .error e
    | .ok v => .ok ({ st with e := v }, none)
  | .OP_DIR =>
    match dir_name o.arg with
    | .error e => .error e
    | .ok v => .ok ({ st with root := set_head (fun c => { c with direction := v }) st.root }, none)
  | .OP_WRAP =>
    match wrap_name o.arg with
    | .error e => .error e
    | .ok v => .ok ({ st with root := set_head (fun c => { c with wrap := v }) st.root }, none)
  | .OP_JUSTIFY_CONTENT =>
    match justify_content_name o.arg with
    | .error e => .error e
    | .ok v => .ok ({ st with root := set_head (fun c => { c with justify_content := v }) st.root }, none)
  | .OP_ALIGN_ITEMS =>
    match align_name o.arg with
    | .error e => .error e
    | .ok v => .ok ({ st with root := set_head (fun c => { c with align_items := v }) st.root }, none)
  | .OP_ALIGN_SELF =>
    match align_name o.arg with
    | .error e => .error e
    | .ok v => .ok ({ st with align_self := v }, none)
  | .OP_SHRINK =>
    match flex_strtof o.arg 0 none with
    | .error e => .error e
    | .ok v => .ok ({ st with shrink := v.1 }, none)
  | .OP_ORDER =>
    match flex_strtoi o.arg 0 INT_MAX with
    | .error e => .error e
    | .ok v => .ok ({ st with order := v.1 }, none)
  | .OP_GROW =>
    match flex_strtof o.arg 0 none with
    | .error e => .error e
    | .ok v => .ok ({ st with grow := v.1 }, none)
  | .OP_BASIS =>
    match flex_strtof o.arg 0 none with
    | .error e => .error e
    | .ok v => .ok ({ st with basis := some v.1 }, none)
  | .OP_LINE_CAP =>
    match line_cap_name o.arg with
    | .error e => .error e
    | .ok v => .ok ({ st with line_cap := v }, none)
  | .OP_LINE_JOIN =>
    match line_join_name o.arg with
    | .error e => .error e
    | .ok v => .ok ({ st with line_join := v }, none)
  | .OP_LINE_OFFSET =>
    match xf_strtod o.arg 0 none with
    | .error e => .error e
    | .ok v => .ok ({ st with line_offset := v.1 }, none)
  | .OP_LINE_WIDTH =>
    match xf_strtod o.arg 0 none with
    | .error e => .error e
    | .ok v => .ok ({ st with line_width := v.1 }, none)
  | .OP_MITER_LIMIT =>
    match xf_strtod o.arg 0 none with
    | .error e => .error e
    | .ok v => .ok ({ st with miter_limit := v.1 }, none)
  | .OP_IMG =>
    match op_img ext st.padding o.arg with
    | .error e => .error e
    | .ok p => .ok (st, some p)
  | .OP_RULE =>
    match st.ca_name with
    | some _ => .error .InvalidCombinationError
    | none =>
      let p := op_rule ext st
      let st' := if st.grow = 0 then { st with grow := 10 } else st
      .ok (st', some p)
  | .OP_MARKUP => .ok (st, some (op_text ext st true o.arg))
  | .OP_TEXT => .ok (st, some (op_text ext st false o.arg))

/-- struct eval_ctx plus the evaluator state: the act list b and the created
flex items, in creation order (the C arrays indexed by ectx.n). -/
structure eval_ctx where
  st : eval_state
  b : List act
  items : List flex_item_model
deriving Repr

/-- The loop body of eval_line in main.c for one op:
- run eval_op; ops that create no node only update the state;
- for a created node that is not a container, append the act, with the
  background and clickable-area name taken from the state before any reset;
- if the item width is defined (not NAN), set grow and shrink on the item
  from the state and reset grow, shrink and the clickable-area name (the
  source has a TODO noting align-self is not reset here);
- set order, basis, align-self, margin and padding on the item from the
  state;
- reset order to 0;
- for a container, push it as the new current root. -/
def eval_line_step (ext : Ext) (ec : eval_ctx) (o : op) :
    Except Err (eval_ctx × Option flex_item_model) :=
  match eval_op ext ec.st o with
  | .error e => .error e
  | .ok (st1, none) => .ok ({ ec with st := st1 }, none)
  | .ok (st1, some pend) =>
    let b' := match pend.payload with
      | some pay => ec.b ++ [{ f := { x := 0, y := 0, w := 0, h := 0 },
                               m := outline0, p := outline0,
                               bg := st1.bg, ca_name := st1.ca_name, u := pay }]
      | none => ec.b
    let sized := pend.width.isSome
    let st2 := if sized then { st1 with grow := 0, shrink := 0, ca_name := none } else st1
    let it : flex_item_model :=
      { is_container := pend.is_container, width := pend.width, height := pend.height,
        grow := if sized then some st1.grow else none,
        shrink := if sized then some st1.shrink else none,
        order := st2.order, basis := st2.basis, align_self := st2.align_self,
        margin := st2.margin, padding := st2.padding }
    let st3 := { st2 with order := 0 }
    let st4 := if pend.is_container then
        { st3 with root := flex_container_new pend.width pend.height :: st3.root }
      else st3
    .ok ({ st := st4, b := b', items := ec.items ++ [it] }, some it)

/-- The op loop of eval_line. -/
def eval_ops (ext : Ext) : eval_ctx → List op → Except Err eval_ctx
  | ec, [] => .ok ec
  | ec, o :: rest =>
    match eval_line_step ext ec o with
    | .error e => .error e
    | .ok r => eval_ops ext r.1 rest

/-- The evaluator state as initialized at the top of eval_line in main.c:
fresh for every line. -/
def eval_state_init (width height : ℚ) : eval_state :=
  { root := [{ width := some width, height := some height,
               direction := .FLEX_DIRECTION_ROW, wrap := .FLEX_WRAP_NO_WRAP,
               justify_content := .FLEX_ALIGN_START,
               align_items := .FLEX_ALIGN_END,
               align_content := .FLEX_ALIGN_CENTER }],
    margin := 0, padding := 0,
    fg := { r := 1, g := 1, b := 1, a := 1 },
    bg := { r := 0, g := 0, b := 0, a := 1 },
    align_self := .FLEX_ALIGN_AUTO, grow := 0, shrink := 0, basis := none,
    line_cap := .CAIRO_LINE_CAP_BUTT, line_join := .CAIRO_LINE_JOIN_MITER,
    line_offset := 0, line_width := 1, miter_limit := 10,
    order := 0, ca_name := none, desc := "Sans", e := .PANGO_ELLIPSIZE_NONE }

/-- eval_line from main.c: initialize the state, run the op loop, and check
that the container stack is back at the root (flex_item_parent(root) being
NULL in the source); a deeper stack at end of line is the unbalanced-brace
exit.  The subsequent flex_layout call and the copying of solved frames into
the acts are the external solver's work and outside this model. -/
def eval_line (ext : Ext) (width height : ℚ) (ops : List op) :
    Except Err eval_ctx :=
  match eval_ops ext { st := eval_state_init width height, b := [], items := [] } ops with
  | .error e => .error e
  | .ok ec =>
    match ec.st.root with
    | [_] => .ok ec
    | _ => .error .UnbalancedBraceError

/-! ## Brace-balance bookkeeping used by the balance theorems -/

/-- Number of OP_OPEN ops. -/
def count_open (ops : List op) : Nat := ops.countP (fun o => o.type == .OP_OPEN)

/-- Number of OP_CLOSE ops. -/
def count_close (ops : List op) : Nat := ops.countP (fun o => o.type == .OP_CLOSE)

/-- Executable brace-balance check: scan the op types keeping the nesting
depth; a close at depth zero fails, and the scan must end at depth zero. -/
def bal_go : List op_type → Nat → Bool
  | [], d => d == 0
  | .OP_CLOSE :: _, 0 => false
  | .OP_CLOSE :: ts, d + 1 => bal_go ts d
  | .OP_OPEN :: ts, d => bal_go ts (d + 1)
  | _ :: ts, d => bal_go ts d

/-- A line of ops is balanced when opens and closes pair up with no prefix
closing more containers than were opened. -/
def balanced (ops : List op) : Bool := bal_go (ops.map op.type) 0

/-! ## Capacities of the fixed arrays in main (struct op ops[75] and
struct act b[50]) -/

def OPS_CAP : Nat := 75
def ACTS_CAP : Nat := 50

/-! ## Concrete fixtures used by witnesses and counterexamples -/

/-- A concrete collaborator bundle: every text measures 5 by 7 pixels, the
font height is 8, images decode to 4 by 4, and no named colors are known. -/
def ext0 : Ext :=
  { text_size := fun _ _ _ _ => (5, 7),
    rule_height := fun _ => 8,
    img_size := fun _ => (4, 4),
    named_color := fun _ => none }

/-- The evaluator context at the start of a line on a 100 by 20 viewport. -/
def ec0 : eval_ctx :=
  { st := eval_state_init 100 20, b := [], items := [] }

/-- A 10 by 10 frame at the origin. -/
def geom10 : geom := { x := 0, y := 0, w := 10, h := 10 }

/-- A clickable text action named a, frame geom10. -/
def act_a : act :=
  { f := geom10, m := outline0, p := outline0,
    bg := { r := 0, g := 0, b := 0, a := 1 }, ca_name := some "a",
    u := .ACT_TEXT "Sans" .PANGO_ELLIPSIZE_NONE { r := 1, g := 1, b := 1, a := 1 } false "A" }

/-- A clickable text action named b, same frame as act_a. -/
def act_b : act :=
  { f := geom10, m := outline0, p := outline0,
    bg := { r := 0, g := 0, b := 0, a := 1 }, ca_name := some "b",
    u := .ACT_TEXT "Sans" .PANGO_ELLIPSIZE_NONE { r := 1, g := 1, b := 1, a := 1 } false "B" }

/-- The item created by evaluating a text op under ext0 and ec0. -/
def it0 : flex_item_model :=
  { is_container := false, width := some 5, height := some 7, grow := some 0,
    shrink := some 0, order := 0, basis := none,
    align_self := .FLEX_ALIGN_AUTO, margin := 0, padding := 0 }

/-- The act created by evaluating a text op with argument hi under ext0
and ec0. -/
def act_hi : act :=
  { f := { x := 0, y := 0, w := 0, h := 0 }, m := outline0, p := outline0,
    bg := { r := 0, g := 0, b := 0, a := 1 }, ca_name := none,
    u := .ACT_TEXT "Sans" .PANGO_ELLIPSIZE_NONE { r := 1, g := 1, b := 1, a := 1 } false "hi" }

/-- The evaluator context after evaluating the text op hi from ec0. -/
def ec1 : eval_ctx := { st := eval_state_init 100 20, b := [act_hi], items := [it0] }

/-- All channels of an rgba value lie in the unit interval. -/
def rgba_in_unit (c : rgba) : Prop :=
  0 ≤ c.r ∧ c.r ≤ 1 ∧ 0 ≤ c.g ∧ c.g ≤ 1 ∧ 0 ≤ c.b ∧ c.b ≤ 1 ∧ 0 ≤ c.a ∧ c.a ≤ 1

/-- A balanced two-op line: one open, one close. -/
def ops_oc : List op :=
  [{ type := .OP_OPEN, arg := "" }, { type := .OP_CLOSE, arg := "" }]

/-- The evaluator context produced by evaluating ops_oc on a 10 by 10
viewport. -/
def ec_oc : eval_ctx :=
  { st := eval_state_init 10 10, b := [],
    items := [{ is_container := true, width := some 10, height := some 10,
                grow := some 0, shrink := some 0, order := 0, basis := none,
                align_self := .FLEX_ALIGN_AUTO, margin := 0, padding := 0 }] }

/-- A line of 76 open braces: longer than the 75-slot op array can hold,
far shorter than the line-length bound. -/
def brace_line : List Char := List.replicate 76 '{' ++ ['\n']

/-- A line of 51 text commands: more leaves than the 50-slot act array can
hold, far shorter than the line-length bound. -/
def cmd_line : List Char := (List.replicate 51 "^text{x}".toList).flatten ++ ['\n']

/-!
# Helper lemmas
-/

/-- Reading back an element just stored by List.set. -/
theorem getD_set_self : ∀ (l : List Char) (i : Nat) (c d : Char), i < l.length →
    (l.set i c).getD i d = c
  | _ :: _, 0, _, _, _ => rfl
  | _ :: l, i + 1, c, d, h => getD_set_self l i c d (by simpa using h)
  | [], _, _, _, h => absurd h (by simp)

/-- fgets stores at most its size bound. -/
theorem fgets_store_len_le : ∀ (cs : List Char) (n : Nat), (fgets_store cs n).length ≤ n
  | _ :: _, 0 => by simp [fgets_store]
  | [], 0 => by simp [fgets_store]
  | [], _ + 1 => by simp [fgets_store]
  | c :: cs, n + 1 => by
    simp only [fgets_store]
    split
    · simp
    · simpa using Nat.succ_le_succ (fgets_store_len_le cs n)

/-- The only error flex_strtof produces is the invalid-number one. -/
theorem flex_strtof_error_class (s : String) (mn : ℚ) (mx : Option ℚ) (e : Err)
    (h : flex_strtof s mn mx = .error e) : e = .InvalidNumberError := by
  simp only [flex_strtof] at h
  repeat' split at h
  all_goals simp_all

/-- The only error flex_strtoi produces is the invalid-number one. -/
theorem flex_strtoi_error_class (s : String) (mn mx : Int) (e : Err)
    (h : flex_strtoi s mn mx = .error e) : e = .InvalidNumberError := by
  simp only [flex_strtoi] at h
  repeat' split at h
  all_goals simp_all

/-- The only error parse_color produces is the invalid-color one. -/
theorem parse_color_error_class (named : String → Option (Nat × Nat × Nat))
    (s : String) (e : Err) (h : parse_color named s = .error e) :
    e = .InvalidColorError := by
  simp only [parse_color] at h
  repeat' split at h
  all_goals simp_all

/-- The only error ellipsize_name produces is the unrecognized-enum one. -/
theorem ellipsize_name_error_class (s : String) (e : Err)
    (h : ellipsize_name s = .error e) : e = .UnrecognizedEnumError := by
  simp only [ellipsize_name] at h
  repeat' split at h
  all_goals simp_all

/-- The only error dir_name produces is the unrecognized-enum one. -/
theorem dir_name_error_class (s : String) (e : Err)
    (h : dir_name s = .error e) : e = .UnrecognizedEnumError := by
  simp only [dir_name] at h
  repeat' split at h
  all_goals simp_all

/-- The only error wrap_name produces is the unrecognized-enum one. -/
theorem wrap_name_error_class (s : String) (e : Err)
    (h : wrap_name s = .error e) : e = .UnrecognizedEnumError := by
  simp only [wrap_name] at h
  repeat' split at h
  all_goals simp_all

/-- The only error justify_content_name produces is the unrecognized-enum
one. -/
theorem justify_content_name_error_class (s : String) (e : Err)
    (h : justify_content_name s = .error e) : e = .UnrecognizedEnumError := by
  simp only [justify_content_name] at h
  repeat' split at h
  all_goals simp_all

/-- The only error align_name produces is the unrecognized-enum one. -/
theorem align_name_error_class (s : String) (e : Err)
    (h : align_name s = .error e) : e = .UnrecognizedEnumError := by
  simp only [align_name] at h
  repeat' split at h
  all_goals simp_all

/-- The only error line_cap_name produces is the unrecognized-enum one. -/
theorem line_cap_name_error_class (s : String) (e : Err)
    (h : line_cap_name s = .error e) : e = .UnrecognizedEnumError := by
  simp only [line_cap_name] at h
  repeat' split at h
  all_goals simp_all

/-- The only error line_join_name produces is the unrecognized-enum one. -/
theorem line_join_name_error_class (s : String) (e : Err)
    (h : line_join_name s = .error e) : e = .UnrecognizedEnumError := by
  simp only [line_join_name] at h
  repeat' split at h
  all_goals simp_all

/-- The only error ext_fmt produces is the resource one. -/
theorem ext_fmt_error_class (s : String) (e : Err)
    (h : ext_fmt s = .error e) : e = .ResourceError := by
  simp only [ext_fmt] at h
  repeat' split at h
  all_goals simp_all

/-- The only error op_img produces is the resource one. -/
theorem op_img_error_class (ext : Ext) (pad : ℚ) (file : String) (e : Err)
    (h : op_img ext pad file = .error e) : e = .ResourceError := by
  simp only [op_img] at h
  split at h
  · next e' heq =>
    injection h with h
    subst h
    exact ext_fmt_error_class file e' heq
  · simp_all
  · simp_all

/-- A successful op_img yields exactly the png pending item. -/
theorem op_img_ok (ext : Ext) (pad : ℚ) (file : String) (p : pending_item)
    (h : op_img ext pad file = .ok p) :
    p = { is_container := false,
          width := some ((ext.img_size file).1 + pad * 2),
          height := some ((ext.img_size file).2 + pad * 2),
          payload := some (.ACT_IMG file) } := by
  simp only [op_img] at h
  split at h
  · simp_all
  · injection h with h
    exact h.symm
  · simp_all

/-- A hexadecimal digit value is below 16. -/
theorem hex_val_lt (c : Char) (d : Nat) (h : hex_val c = some d) : d < 16 := by
  unfold hex_val at h
  split at h
  · next hc => injection h with h; omega
  · split at h
    · next hc => injection h with h; omega
    · split at h
      · next hc => injection h with h; omega
      · exact absurd h (by simp)

/-- On a string of hex digits only, the scan consumes everything. -/
theorem strtoul_hex_go_all_hex : ∀ (cs : List Char) (acc k : Nat),
    (∀ c ∈ cs, (hex_val c).isSome = true) →
    (strtoul_hex_go cs acc k).2 = k + cs.length := by
  intro cs
  induction cs with
  | nil => intro acc k _; simp [strtoul_hex_go]
  | cons c cs ih =>
    intro acc k hall
    have hc : (hex_val c).isSome = true := hall c (List.mem_cons_self ..)
    rcases hv : hex_val c with _ | d
    · rw [hv] at hc; simp at hc
    · simp only [strtoul_hex_go, hv, List.length_cons]
      rw [ih _ _ (fun c hc => hall c (List.mem_cons_of_mem _ hc))]
      omega

/-- Unpacking a packed four-byte value channel by channel. -/
theorem rgba_of_packed_digits (x1 x2 x3 x4 : Nat)
    (hx1 : x1 < 256) (hx2 : x2 < 256) (hx3 : x3 < 256) (hx4 : x4 < 256) :
    rgba_of_packed (((x1 * 256 + x2) * 256 + x3) * 256 + x4)
      = { r := (x1 : ℚ) / 255, g := (x2 : ℚ) / 255,
          b := (x3 : ℚ) / 255, a := (x4 : ℚ) / 255 } := by
  unfold rgba_of_packed
  have hp24 : (2 : ℕ) ^ 24 = 16777216 := by norm_num
  have hp16 : (2 : ℕ) ^ 16 = 65536 := by norm_num
  have hp8 : (2 : ℕ) ^ 8 = 256 := by norm_num
  rw [hp24, hp16, hp8]
  have e1 : (((x1 * 256 + x2) * 256 + x3) * 256 + x4) / 16777216 % 256 = x1 := by omega
  have e2 : (((x1 * 256 + x2) * 256 + x3) * 256 + x4) / 65536 % 256 = x2 := by omega
  have e3 : (((x1 * 256 + x2) * 256 + x3) * 256 + x4) / 256 % 256 = x3 := by omega
  have e4 : (((x1 * 256 + x2) * 256 + x3) * 256 + x4) % 256 = x4 := by omega
  rw [e1, e2, e3, e4]

/-- Every unpacked rgba value has all channels in the unit interval. -/
theorem rgba_of_packed_in_unit (n : Nat) : rgba_in_unit (rgba_of_packed n) := by
  unfold rgba_in_unit rgba_of_packed
  refine ⟨?_, ?_, ?_, ?_, ?_, ?_, ?_, ?_⟩ <;>
    first
    | positivity
    | (rw [div_le_one (by norm_num)]
       exact_mod_cast Nat.le_of_lt_succ (Nat.mod_lt _ (by norm_num)))

/-- set_head preserves the stack length. -/
theorem set_head_length (f : flex_container → flex_container) :
    ∀ l : List flex_container, (set_head f l).length = l.length
  | [] => rfl
  | _ :: _ => rfl

/-- An open op always succeeds, creating a node and pushing one container. -/
theorem eval_step_open_ok (ext : Ext) (ec : eval_ctx) (arg : String) :
    ∃ r it, eval_line_step ext ec { type := .OP_OPEN, arg := arg }
      = .ok (r, some it) := by
  obtain ⟨⟨root, m, p, fg, bg, als, g, s, ba, lc, lj, lo, lw, ml, od, ca, d, e⟩, b, its⟩ := ec
  rcases root with _ | ⟨c, cs⟩
  · exact ⟨_, _, rfl⟩
  · obtain ⟨cw, ch, cd, cwr, cj, cai, cac⟩ := c
    rcases cw with _ | w
    · exact ⟨_, _, rfl⟩
    · exact ⟨_, _, rfl⟩

/-- An open op grows the container stack by one. -/
theorem eval_step_open_len (ext : Ext) (ec : eval_ctx) (arg : String)
    (r : eval_ctx) (o : Option flex_item_model)
    (h : eval_line_step ext ec { type := .OP_OPEN, arg := arg } = .ok (r, o)) :
    r.st.root.length = ec.st.root.length + 1 := by
  obtain ⟨⟨root, m, p, fg, bg, als, g, s, ba, lc, lj, lo, lw, ml, od, ca, d, e⟩, b, its⟩ := ec
  rcases root with _ | ⟨c, cs⟩
  · injection h with h1
    injection h1 with h2 h3
    subst h2
    rfl
  · obtain ⟨cw, ch, cd, cwr, cj, cai, cac⟩ := c
    rcases cw with _ | w <;>
    · injection h with h1
      injection h1 with h2 h3
      subst h2
      rfl

/-- A close op with at least two stacked containers succeeds and creates no
node. -/
theorem eval_step_close_ok (ext : Ext) (ec : eval_ctx) (arg : String)
    (h : 2 ≤ ec.st.root.length) :
    ∃ r, eval_line_step ext ec { type := .OP_CLOSE, arg := arg }
      = .ok (r, none) := by
  obtain ⟨⟨root, m, p, fg, bg, als, g, s, ba, lc, lj, lo, lw, ml, od, ca, d, e⟩, b, its⟩ := ec
  rcases root with _ | ⟨c, cs⟩
  · simp at h
  · rcases cs with _ | ⟨c2, cs2⟩
    · simp at h
    · exact ⟨_, rfl⟩

/-- A close op that succeeds had at least two stacked containers and pops
exactly one. -/
theorem eval_step_close_len (ext : Ext) (ec : eval_ctx) (arg : String)
    (r : eval_ctx) (o : Option flex_item_model)
    (h : eval_line_step ext ec { type := .OP_CLOSE, arg := arg } = .ok (r, o)) :
    2 ≤ ec.st.root.length ∧ r.st.root.length + 1 = ec.st.root.length := by
  obtain ⟨⟨root, m, p, fg, bg, als, g, s, ba, lc, lj, lo, lw, ml, od, ca, d, e⟩, b, its⟩ := ec
  rcases root with _ | ⟨c, cs⟩
  · exact absurd h (by simp [eval_line_step, eval_op])
  · rcases cs with _ | ⟨c2, cs2⟩
    · exact absurd h (by simp [eval_line_step, eval_op])
    · injection h with h1
      injection h1 with h2 h3
      subst h2
      exact ⟨by simp, rfl⟩

/-- A close op with fewer than two stacked containers is the
unbalanced-brace error. -/
theorem eval_step_close_err (ext : Ext) (ec : eval_ctx) (arg : String)
    (h : ec.st.root.length ≤ 1) :
    eval_line_step ext ec { type := .OP_CLOSE, arg := arg }
      = .error .UnbalancedBraceError := by
  obtain ⟨⟨root, m, p, fg, bg, als, g, s, ba, lc, lj, lo, lw, ml, od, ca, d, e⟩, b, its⟩ := ec
  rcases root with _ | ⟨c, cs⟩
  · rfl
  · rcases cs with _ | ⟨c2, cs2⟩
    · rfl
    · simp at h

/-- Ops other than open and close leave the container stack length
unchanged. -/
theorem eval_step_other_len (ext : Ext) (ec : eval_ctx) (o : op)
    (r : eval_ctx) (io : Option flex_item_model)
    (ho : o.type ≠ .OP_OPEN) (hc : o.type ≠ .OP_CLOSE)
    (h : eval_line_step ext ec o = .ok (r, io)) :
    r.st.root.length = ec.st.root.length := by
  obtain ⟨t, arg⟩ := o
  cases t
  case OP_OPEN => exact absurd rfl ho
  case OP_CLOSE => exact absurd rfl hc
  case OP_CA =>
    simp only [eval_line_step, eval_op, Except.ok.injEq, Prod.mk.injEq] at h
    obtain ⟨h1, _⟩ := h; subst h1; rfl
  case OP_FONT =>
    simp only [eval_line_step, eval_op, Except.ok.injEq, Prod.mk.injEq] at h
    obtain ⟨h1, _⟩ := h; subst h1; rfl
  case OP_BG =>
    cases hp : parse_color ext.named_color arg <;>
      simp [eval_line_step, eval_op, hp] at h
    obtain ⟨h1, _⟩ := h; subst h1; rfl
  case OP_FG =>
    cases hp : parse_color ext.named_color arg <;>
      simp [eval_line_step, eval_op, hp] at h
    obtain ⟨h1, _⟩ := h; subst h1; rfl
  case OP_ELLIPSIZE =>
    cases hp : ellipsize_name arg <;>
      simp [eval_line_step, eval_op, hp] at h
    obtain ⟨h1, _⟩ := h; subst h1; rfl
  case OP_DIR =>
    cases hp : dir_name arg <;>
      simp [eval_line_step, eval_op, hp] at h
    obtain ⟨h1, _⟩ := h; subst h1; exact set_head_length _ _
  case OP_WRAP =>
    cases hp : wrap_name arg <;>
      simp [eval_line_step, eval_op, hp] at h
    obtain ⟨h1, _⟩ := h; subst h1; exact set_head_length _ _
  case OP_JUSTIFY_CONTENT =>
    cases hp : justify_content_name arg <;>
      simp [eval_line_step, eval_op, hp] at h
    obtain ⟨h1, _⟩ := h; subst h1; exact set_head_length _ _
  case OP_ALIGN_ITEMS =>
    cases hp : align_name arg <;>
      simp [eval_line_step, eval_op, hp] at h
    obtain ⟨h1, _⟩ := h; subst h1; exact set_head_length _ _
  case OP_ALIGN_SELF =>
    cases hp : align_name arg <;>
      simp [eval_line_step, eval_op, hp] at h
    obtain ⟨h1, _⟩ := h; subst h1; rfl
  case OP_SHRINK =>
    cases hp : flex_strtof arg 0 none <;>
      simp [eval_line_step, eval_op, hp] at h
    obtain ⟨h1, _⟩ := h; subst h1; rfl
  case OP_ORDER =>
    cases hp : flex_strtoi arg 0 INT_MAX <;>
      simp [eval_line_step, eval_op, hp] at h
    obtain ⟨h1, _⟩ := h; subst h1; rfl
  case OP_GROW =>
    cases hp : flex_strtof arg 0 none <;>
      simp [eval_line_step, eval_op, hp] at h
    obtain ⟨h1, _⟩ := h; subst h1; rfl
  case OP_BASIS =>
    cases hp : flex_strtof arg 0 none <;>
      simp [eval_line_step, eval_op, hp] at h
    obtain ⟨h1, _⟩ := h; subst h1; rfl
  case OP_LINE_CAP =>
    cases hp : line_cap_name arg <;>
      simp [eval_line_step, eval_op, hp] at h
    obtain ⟨h1, _⟩ := h; subst h1; rfl
  case OP_LINE_JOIN =>
    cases hp : line_join_name arg <;>
      simp [eval_line_step, eval_op, hp] at h
    obtain ⟨h1, _⟩ := h; subst h1; rfl
  case OP_LINE_OFFSET =>
    cases hp : xf_strtod arg 0 none <;>
      simp [eval_line_step, eval_op, hp] at h
    obtain ⟨h1, _⟩ := h; subst h1; rfl
  case OP_LINE_WIDTH =>
    cases hp : xf_strtod arg 0 none <;>
      simp [eval_line_step, eval_op, hp] at h
    obtain ⟨h1, _⟩ := h; subst h1; rfl
  case OP_MITER_LIMIT =>
    cases hp : xf_strtod arg 0 none <;>
      simp [eval_line_step, eval_op, hp] at h
    obtain ⟨h1, _⟩ := h; subst h1; rfl
  case OP_IMG =>
    cases hp : op_img ext ec.st.padding arg with
    | error e => simp [eval_line_step, eval_op, hp] at h
    | ok p =>
      rw [op_img_ok ext ec.st.padding arg p hp] at hp
      simp [eval_line_step, eval_op, hp] at h
      obtain ⟨h1, _⟩ := h; subst h1; rfl
  case OP_RULE =>
    cases hca : ec.st.ca_name with
    | some nm => simp [eval_line_step, eval_op, hca] at h
    | none =>
      by_cases hg : ec.st.grow = 0 <;>
      · simp [eval_line_step, eval_op, hca, hg, op_rule] at h
        obtain ⟨h1, _⟩ := h; subst h1; rfl
  case OP_MARKUP =>
    simp [eval_line_step, eval_op, op_text] at h
    obtain ⟨h1, _⟩ := h; subst h1; rfl
  case OP_TEXT =>
    simp [eval_line_step, eval_op, op_text] at h
    obtain ⟨h1, _⟩ := h; subst h1; rfl

/-- Ops other than close never produce the unbalanced-brace error. -/
theorem eval_step_other_err (ext : Ext) (ec : eval_ctx) (o : op) (e : Err)
    (hc : o.type ≠ .OP_CLOSE)
    (h : eval_line_step ext ec o = .error e) : e ≠ .UnbalancedBraceError := by
  obtain ⟨t, arg⟩ := o
  cases t
  case OP_CLOSE => exact absurd rfl hc
  case OP_OPEN =>
    obtain ⟨r, it, hr⟩ := eval_step_open_ok ext ec arg
    rw [hr] at h
    exact absurd h (by simp)
  case OP_CA => simp [eval_line_step, eval_op] at h
  case OP_FONT => simp [eval_line_step, eval_op] at h
  case OP_BG =>
    cases hp : parse_color ext.named_color arg <;>
      simp only [eval_line_step, eval_op, hp, Except.error.injEq] at h
    · subst h; rw [parse_color_error_class _ _ _ hp]; decide
    · exact absurd h (by simp)
  case OP_FG =>
    cases hp : parse_color ext.named_color arg <;>
      simp only [eval_line_step, eval_op, hp, Except.error.injEq] at h
    · subst h; rw [parse_color_error_class _ _ _ hp]; decide
    · exact absurd h (by simp)
  case OP_ELLIPSIZE =>
    cases hp : ellipsize_name arg <;>
      simp only [eval_line_step, eval_op, hp, Except.error.injEq] at h
    · subst h; rw [ellipsize_name_error_class _ _ hp]; decide
    · exact absurd h (by simp)
  case OP_DIR =>
    cases hp : dir_name arg <;>
      simp only [eval_line_step, eval_op, hp, Except.error.injEq] at h
    · subst h; rw [dir_name_error_class _ _ hp]; decide
    · exact absurd h (by simp)
  case OP_WRAP =>
    cases hp : wrap_name arg <;>
      simp only [eval_line_step, eval_op, hp, Except.error.injEq] at h
    · subst h; rw [wrap_name_error_class _ _ hp]; decide
    · exact absurd h (by simp)
  case OP_JUSTIFY_CONTENT =>
    cases hp : justify_content_name arg <;>
      simp only [eval_line_step, eval_op, hp, Except.error.injEq] at h
    · subst h; rw [justify_content_name_error_class _ _ hp]; decide
    · exact absurd h (by simp)
  case OP_ALIGN_ITEMS =>
    cases hp : align_name arg <;>
      simp only [eval_line_step, eval_op, hp, Except.error.injEq] at h
    · subst h; rw [align_name_error_class _ _ hp]; decide
    · exact absurd h (by simp)
  case OP_ALIGN_SELF =>
    cases hp : align_name arg <;>
      simp only [eval_line_step, eval_op, hp, Except.error.injEq] at h
    · subst h; rw [align_name_error_class _ _ hp]; decide
    · exact absurd h (by simp)
  case OP_SHRINK =>
    cases hp : flex_strtof arg 0 none <;>
      simp only [eval_line_step, eval_op, hp, Except.error.injEq] at h
    · subst h; rw [flex_strtof_error_class _ _ _ _ hp]; decide
    · exact absurd h (by simp)
  case OP_ORDER =>
    cases hp : flex_strtoi arg 0 INT_MAX <;>
      simp only [eval_line_step, eval_op, hp, Except.error.injEq] at h
    · subst h; rw [flex_strtoi_error_class _ _ _ _ hp]; decide
    · exact absurd h (by simp)
  case OP_GROW =>
    cases hp : flex_strtof arg 0 none <;>
      simp only [eval_line_step, eval_op, hp, Except.error.injEq] at h
    · subst h; rw [flex_strtof_error_class _ _ _ _ hp]; decide
    · exact absurd h (by simp)
  case OP_BASIS =>
    cases hp : flex_strtof arg 0 none <;>
      simp only [eval_line_step, eval_op, hp, Except.error.injEq] at h
    · subst h; rw [flex_strtof_error_class _ _ _ _ hp]; decide
    · exact absurd h (by simp)
  case OP_LINE_CAP =>
    cases hp : line_cap_name arg <;>
      simp only [eval_line_step, eval_op, hp, Except.error.injEq] at h
    · subst h; rw [line_cap_name_error_class _ _ hp]; decide
    · exact absurd h (by simp)
  case OP_LINE_JOIN =>
    cases hp : line_join_name arg <;>
      simp only [eval_line_step, eval_op, hp, Except.error.injEq] at h
    · subst h; rw [line_join_name_error_class _ _ hp]; decide
    · exact absurd h (by simp)
  case OP_LINE_OFFSET =>
    cases hp : xf_strtod arg 0 none <;>
      simp only [eval_line_step, eval_op, hp, Except.error.injEq] at h
    · subst h; rw [flex_strtof_error_class _ _ _ _ hp]; decide
    · exact absurd h (by simp)
  case OP_LINE_WIDTH =>
    cases hp : xf_strtod arg 0 none <;>
      simp only [eval_line_step, eval_op, hp, Except.error.injEq] at h
    · subst h; rw [flex_strtof_error_class _ _ _ _ hp]; decide
    · exact absurd h (by simp)
  case OP_MITER_LIMIT =>
    cases hp : xf_strtod arg 0 none <;>
      simp only [eval_line_step, eval_op, hp, Except.error.injEq] at h
    · subst h; rw [flex_strtof_error_class _ _ _ _ hp]; decide
    · exact absurd h (by simp)
  case OP_IMG =>
    cases hp : op_img ext ec.st.padding arg with
    | error e2 =>
      simp only [eval_line_step, eval_op, hp, Except.error.injEq] at h
      subst h; rw [op_img_error_class _ _ _ _ hp]; decide
    | ok p =>
      rw [op_img_ok ext ec.st.padding arg p hp] at hp
      simp [eval_line_step, eval_op, hp] at h
  case OP_RULE =>
    cases hca : ec.st.ca_name with
    | some nm =>
      simp only [eval_line_step, eval_op, hca, Except.error.injEq] at h
      subst h; decide
    | none =>
      by_cases hg : ec.st.grow = 0 <;>
        simp [eval_line_step, eval_op, hca, hg, op_rule] at h
  case OP_MARKUP => simp [eval_line_step, eval_op, op_text] at h
  case OP_TEXT => simp [eval_line_step, eval_op, op_text] at h

/-- Unfolding equation for the op loop on a nonempty list. -/
theorem eval_ops_cons (ext : Ext) (ec : eval_ctx) (o : op) (rest : List op) :
    eval_ops ext ec (o :: rest) =
      match eval_line_step ext ec o with
      | .error e => .error e
      | .ok r1 => eval_ops ext r1.1 rest := rfl

/-- Open count of a cons. -/
theorem count_open_cons (o : op) (l : List op) :
    count_open (o :: l) = count_open l + (if o.type = .OP_OPEN then 1 else 0) := by
  simp [count_open, List.countP_cons]

/-- Close count of a cons. -/
theorem count_close_cons (o : op) (l : List op) :
    count_close (o :: l) = count_close l + (if o.type = .OP_CLOSE then 1 else 0) := by
  simp [count_close, List.countP_cons]

/-- Running the op loop to success relates the final stack depth to the
initial depth by opens minus closes, and no prefix of the ops closes more
containers than were opened on top of the initial stack. -/
theorem eval_ops_ok_len (ext : Ext) (ops : List op) : ∀ (ec r : eval_ctx),
    1 ≤ ec.st.root.length →
    eval_ops ext ec ops = .ok r →
    r.st.root.length + count_close ops = ec.st.root.length + count_open ops ∧
    ∀ n, count_close (ops.take n) + 1 ≤ count_open (ops.take n) + ec.st.root.length := by
  induction ops with
  | nil =>
    intro ec r h1 h
    simp only [eval_ops] at h
    injection h with h2
    subst h2
    refine ⟨rfl, fun n => ?_⟩
    simp only [List.take_nil, count_close, count_open, List.countP_nil]
    omega
  | cons o rest ih =>
    intro ec r h1 h
    obtain ⟨t, arg⟩ := o
    rw [eval_ops_cons] at h
    cases hs : eval_line_step ext ec { type := t, arg := arg } with
    | error e =>
      rw [hs] at h
      exact Except.noConfusion h
    | ok r1 =>
      rw [hs] at h
      have h' : eval_ops ext r1.1 rest = .ok r := h
      by_cases ht : t = .OP_OPEN
      · subst ht
        have hlen := eval_step_open_len ext ec arg r1.1 r1.2 hs
        have hih := ih r1.1 r (by omega) h'
        constructor
        · have := hih.1
          simp [count_open_cons, count_close_cons]
          omega
        · intro n
          rcases n with _ | n
          · simp only [List.take_zero, count_close, count_open, List.countP_nil]
            omega
          · rw [List.take_succ_cons]
            have := hih.2 n
            simp [count_open_cons, count_close_cons]
            omega
      · by_cases hcl : t = .OP_CLOSE
        · subst hcl
          have hlen := eval_step_close_len ext ec arg r1.1 r1.2 hs
          have hih := ih r1.1 r (by omega) h'
          constructor
          · have := hih.1
            simp [count_open_cons, count_close_cons]
            omega
          · intro n
            rcases n with _ | n
            · simp only [List.take_zero, count_close, count_open, List.countP_nil]
              omega
            · rw [List.take_succ_cons]
              have := hih.2 n
              simp [count_open_cons, count_close_cons]
              omega
        · have hlen := eval_step_other_len ext ec { type := t, arg := arg } r1.1 r1.2 ht hcl hs
          have hih := ih r1.1 r (by omega) h'
          constructor
          · have := hih.1
            simp [count_open_cons, count_close_cons, ht, hcl]
            omega
          · intro n
            rcases n with _ | n
            · simp only [List.take_zero, count_close, count_open, List.countP_nil]
              omega
            · rw [List.take_succ_cons]
              have := hih.2 n
              simp [count_open_cons, count_close_cons, ht, hcl]
              omega

/-- If the ops close exactly as many containers as they open on top of the
initial stack and no prefix closes more than was opened, the op loop never
fails with the unbalanced-brace error, and on success the final stack is a
lone root. -/
theorem eval_ops_counts (ext : Ext) (ops : List op) : ∀ (ec : eval_ctx),
    1 ≤ ec.st.root.length →
    count_close ops + 1 = count_open ops + ec.st.root.length →
    (∀ n, count_close (ops.take n) + 1 ≤ count_open (ops.take n) + ec.st.root.length) →
    (∀ e, eval_ops ext ec ops = .error e → e ≠ .UnbalancedBraceError) ∧
    (∀ r, eval_ops ext ec ops = .ok r → r.st.root.length = 1) := by
  induction ops with
  | nil =>
    intro ec h1 hcnt _
    constructor
    · intro e he
      exact Except.noConfusion he
    · intro r hr
      simp only [eval_ops] at hr
      injection hr with h2
      subst h2
      simp only [count_close, count_open, List.countP_nil] at hcnt
      omega
  | cons o rest ih =>
    intro ec h1 hcnt hpre
    obtain ⟨t, arg⟩ := o
    cases hs : eval_line_step ext ec { type := t, arg := arg } with
    | error e0 =>
      constructor
      · intro e he
        rw [eval_ops_cons, hs] at he
        have he' : (Except.error e0 : Except Err eval_ctx) = .error e := he
        injection he' with h2
        subst h2
        by_cases ht : t = .OP_OPEN
        · subst ht
          obtain ⟨r', it', hr'⟩ := eval_step_open_ok ext ec arg
          rw [hr'] at hs
          exact Except.noConfusion hs
        · by_cases hcl : t = .OP_CLOSE
          · subst hcl
            have hd : 2 ≤ ec.st.root.length := by
              have := hpre 1
              simp [count_open_cons, count_close_cons, count_open, count_close] at this
              omega
            obtain ⟨r', hr'⟩ := eval_step_close_ok ext ec arg hd
            rw [hr'] at hs
            exact Except.noConfusion hs
          · exact eval_step_other_err ext ec { type := t, arg := arg } e0 hcl hs
      · intro r hr
        rw [eval_ops_cons, hs] at hr
        exact Except.noConfusion hr
    | ok r1 =>
      by_cases ht : t = .OP_OPEN
      · subst ht
        have hlen := eval_step_open_len ext ec arg r1.1 r1.2 hs
        simp [count_open_cons, count_close_cons] at hcnt
        have hih := ih r1.1 (by omega) (by omega)
          (fun n => by
            have := hpre (n + 1)
            rw [List.take_succ_cons] at this
            simp [count_open_cons, count_close_cons] at this
            omega)
        constructor
        · intro e he
          rw [eval_ops_cons, hs] at he
          exact hih.1 e he
        · intro r hr
          rw [eval_ops_cons, hs] at hr
          exact hih.2 r hr
      · by_cases hcl : t = .OP_CLOSE
        · subst hcl
          have hlen := eval_step_close_len ext ec arg r1.1 r1.2 hs
          simp [count_open_cons, count_close_cons] at hcnt
          have hih := ih r1.1 (by omega) (by omega)
            (fun n => by
              have := hpre (n + 1)
              rw [List.take_succ_cons] at this
              simp [count_open_cons, count_close_cons] at this
              omega)
          constructor
          · intro e he
            rw [eval_ops_cons, hs] at he
            exact hih.1 e he
          · intro r hr
            rw [eval_ops_cons, hs] at hr
            exact hih.2 r hr
        · have hlen := eval_step_other_len ext ec { type := t, arg := arg } r1.1 r1.2 ht hcl hs
          simp [count_open_cons, count_close_cons, ht, hcl] at hcnt
          have hih := ih r1.1 (by omega) (by omega)
            (fun n => by
              have := hpre (n + 1)
              rw [List.take_succ_cons] at this
              simp [count_open_cons, count_close_cons, ht, hcl] at this
              omega)
          constructor
          · intro e he
            rw [eval_ops_cons, hs] at he
            exact hih.1 e he
          · intro r hr
            rw [eval_ops_cons, hs] at hr
            exact hih.2 r hr

/-!
# Claim theorems
-/

set_option maxRecDepth 100000 in
/-- C1 (confirmed): when evaluating one op creates a node and the node's
intrinsic width is defined (every leaf, and every container whose parent has
a defined width), the staged one-shot fields are consumed and reset: the
post state has grow 0, shrink 0 and no clickable-area name; the staged order
is reset to 0 after every created node, sized or not; the node receives
exactly the staged grow and shrink (for every node-creating op other than
rule, whose grow-bump is treated separately in the rule claim); and for
every non-container node the appended act carries exactly the staged
clickable-area name.  Hence a one-shot value can affect at most the single
next sized node. -/
theorem c1_one_shot_consumed (ext : Ext) (ec : eval_ctx) (o : op)
    (r : eval_ctx) (it : flex_item_model)
    (h : eval_line_step ext ec o = .ok (r, some it)) :
    (it.width.isSome = true →
       r.st.grow = 0 ∧ r.st.shrink = 0 ∧ r.st.ca_name = none)
    ∧ r.st.order = 0
    ∧ (it.width.isSome = true → o.type ≠ .OP_RULE →
       it.grow = some ec.st.grow ∧ it.shrink = some ec.st.shrink)
    ∧ (o.type ≠ .OP_OPEN → ∃ a, r.b = ec.b ++ [a] ∧ a.ca_name = ec.st.ca_name) := by
  obtain ⟨t, arg⟩ := o
  cases t
  case OP_OPEN =>
    rcases hroot : ec.st.root with _ | ⟨c, cs⟩
    · simp only [eval_line_step, eval_op, hroot] at h
      simp only [Option.isSome_none, Bool.false_eq_true, if_false,
        Except.ok.injEq, Prod.mk.injEq, Option.some.injEq] at h
      obtain ⟨h1, h2⟩ := h
      subst h1; subst h2
      refine ⟨?_, rfl, ?_, ?_⟩
      · intro hw; exact absurd hw (by simp)
      · intro hw; exact absurd hw (by simp)
      · intro hne; exact absurd rfl hne
    · rcases hw : c.width with _ | w
      · simp only [eval_line_step, eval_op, hroot, hw] at h
        simp only [Option.isSome_none, Bool.false_eq_true, if_false,
          Except.ok.injEq, Prod.mk.injEq, Option.some.injEq] at h
        obtain ⟨h1, h2⟩ := h
        subst h1; subst h2
        refine ⟨?_, rfl, ?_, ?_⟩
        · intro hws; exact absurd hws (by simp)
        · intro hws; exact absurd hws (by simp)
        · intro hne; exact absurd rfl hne
      · simp only [eval_line_step, eval_op, hroot, hw] at h
        simp only [Option.isSome_some, if_true,
          Except.ok.injEq, Prod.mk.injEq, Option.some.injEq] at h
        obtain ⟨h1, h2⟩ := h
        subst h1; subst h2
        refine ⟨fun _ => ⟨rfl, rfl, rfl⟩, rfl, fun _ _ => ⟨rfl, rfl⟩, ?_⟩
        intro hne; exact absurd rfl hne
  case OP_CLOSE =>
    rcases hroot : ec.st.root with _ | ⟨c, cs⟩ <;>
      simp [eval_line_step, eval_op, hroot] at h
    rcases cs with _ | ⟨c2, cs2⟩ <;> simp_all [eval_line_step, eval_op]
  case OP_CA => simp [eval_line_step, eval_op] at h
  case OP_BG =>
    cases hp : parse_color ext.named_color arg <;>
      simp [eval_line_step, eval_op, hp] at h
  case OP_FG =>
    cases hp : parse_color ext.named_color arg <;>
      simp [eval_line_step, eval_op, hp] at h
  case OP_FONT => simp [eval_line_step, eval_op] at h
  case OP_ELLIPSIZE =>
    cases hp : ellipsize_name arg <;>
      simp [eval_line_step, eval_op, hp] at h
  case OP_DIR =>
    cases hp : dir_name arg <;>
      simp [eval_line_step, eval_op, hp] at h
  case OP_WRAP =>
    cases hp : wrap_name arg <;>
      simp [eval_line_step, eval_op, hp] at h
  case OP_JUSTIFY_CONTENT =>
    cases hp : justify_content_name arg <;>
      simp [eval_line_step, eval_op, hp] at h
  case OP_ALIGN_ITEMS =>
    cases hp : align_name arg <;>
      simp [eval_line_step, eval_op, hp] at h
  case OP_ALIGN_SELF =>
    cases hp : align_name arg <;>
      simp [eval_line_step, eval_op, hp] at h
  case OP_SHRINK =>
    cases hp : flex_strtof arg 0 none <;>
      simp [eval_line_step, eval_op, hp] at h
  case OP_ORDER =>
    cases hp : flex_strtoi arg 0 INT_MAX <;>
      simp [eval_line_step, eval_op, hp] at h
  case OP_GROW =>
    cases hp : flex_strtof arg 0 none <;>
      simp [eval_line_step, eval_op, hp] at h
  case OP_BASIS =>
    cases hp : flex_strtof arg 0 none <;>
      simp [eval_line_step, eval_op, hp] at h
  case OP_LINE_CAP =>
    cases hp : line_cap_name arg <;>
      simp [eval_line_step, eval_op, hp] at h
  case OP_LINE_JOIN =>
    cases hp : line_join_name arg <;>
      simp [eval_line_step, eval_op, hp] at h
  case OP_LINE_OFFSET =>
    cases hp : xf_strtod arg 0 none <;>
      simp [eval_line_step, eval_op, hp] at h
  case OP_LINE_WIDTH =>
    cases hp : xf_strtod arg 0 none <;>
      simp [eval_line_step, eval_op, hp] at h
  case OP_MITER_LIMIT =>
    cases hp : xf_strtod arg 0 none <;>
      simp [eval_line_step, eval_op, hp] at h
  case OP_IMG =>
    simp only [eval_line_step, eval_op] at h
    cases himg : op_img ext ec.st.padding arg with
    | error e => rw [himg] at h; exact absurd h (by simp)
    | ok p =>
      rw [himg] at h
      rw [op_img_ok ext ec.st.padding arg p himg] at h
      simp only [Option.isSome_some, if_true,
        Except.ok.injEq, Prod.mk.injEq, Option.some.injEq] at h
      obtain ⟨h1, h2⟩ := h
      subst h1; subst h2
      exact ⟨fun _ => ⟨rfl, rfl, rfl⟩, rfl, fun _ _ => ⟨rfl, rfl⟩,
        fun _ => ⟨_, rfl, rfl⟩⟩
  case OP_RULE =>
    cases hca : ec.st.ca_name with
    | some nm => simp [eval_line_step, eval_op, hca] at h
    | none =>
      by_cases hg : ec.st.grow = 0 <;>
      · simp only [eval_line_step, eval_op, hca, hg, op_rule, if_true, if_false] at h
        simp only [Option.isSome_some, if_true,
          Except.ok.injEq, Prod.mk.injEq, Option.some.injEq] at h
        obtain ⟨h1, h2⟩ := h
        subst h1; subst h2
        refine ⟨fun _ => ⟨rfl, rfl, rfl⟩, rfl, ?_, fun _ => ⟨_, rfl, rfl⟩⟩
        intro _ hne; exact absurd rfl hne
  case OP_MARKUP =>
    simp only [eval_line_step, eval_op, op_text] at h
    simp only [Option.isSome_some, if_true,
      Except.ok.injEq, Prod.mk.injEq, Option.some.injEq] at h
    obtain ⟨h1, h2⟩ := h
    subst h1; subst h2
    exact ⟨fun _ => ⟨rfl, rfl, rfl⟩, rfl, fun _ _ => ⟨rfl, rfl⟩,
      fun _ => ⟨_, rfl, rfl⟩⟩
  case OP_TEXT =>
    simp only [eval_line_step, eval_op, op_text] at h
    simp only [Option.isSome_some, if_true,
      Except.ok.injEq, Prod.mk.injEq, Option.some.injEq] at h
    obtain ⟨h1, h2⟩ := h
    subst h1; subst h2
    exact ⟨fun _ => ⟨rfl, rfl, rfl⟩, rfl, fun _ _ => ⟨rfl, rfl⟩,
      fun _ => ⟨_, rfl, rfl⟩⟩

set_option maxRecDepth 100000 in
/-- C1, witness: a text op at the fresh line state creates a sized leaf and
leaves all one-shot fields at their defaults. -/
theorem c1_one_shot_consumed_witness :
    (ec1.st.grow = 0 ∧ ec1.st.shrink = 0 ∧ ec1.st.ca_name = none)
    ∧ ec1.st.order = 0 :=
  have h : eval_line_step ext0 ec0 { type := .OP_TEXT, arg := "hi" }
      = .ok (ec1, some it0) := by with_unfolding_all rfl
  have c := c1_one_shot_consumed ext0 ec0 { type := .OP_TEXT, arg := "hi" } ec1 it0 h
  ⟨c.1 rfl, c.2.1⟩

/-- C2, counterexample: with two overlapping clickable actions both
containing the press point, the hit-testing loop reports both names, in
creation order, not only the first one as the claim states. -/
theorem c2_counterexample :
    button_press_reports [act_a, act_b] 5 5 = ["a", "b"]
    ∧ ["a", "b"] ≠ ["a"] := by
  constructor
  · with_unfolding_all rfl
  · decide

/-- C2 (corrected): the hit-testing loop reports exactly the names of ALL
actions whose clickable-area name is set and whose frame contains the point,
in leaf-creation order; it never reports an action lacking a clickable-area
name or whose frame misses the point, and it reports every matching action
(so the first match does not win: later matches are reported too). -/
theorem c2_hit_test_reports_all (acts : List act) (x y : ℚ) :
    button_press_reports acts x y
      = acts.filterMap (fun a =>
          match a.ca_name with
          | some nm => if inside a.f x y then some nm else none
          | none => none)
    ∧ (∀ nm, nm ∈ button_press_reports acts x y →
        ∃ a, a ∈ acts ∧ a.ca_name = some nm ∧ inside a.f x y = true)
    ∧ (∀ a, a ∈ acts → ∀ nm, a.ca_name = some nm → inside a.f x y = true →
        nm ∈ button_press_reports acts x y) := by
  induction acts with
  | nil => simp [button_press_reports]
  | cons a rest ih =>
    obtain ⟨ih1, ih2, ih3⟩ := ih
    cases hca : a.ca_name with
    | none =>
      refine ⟨?_, ?_, ?_⟩
      · simp [button_press_reports, hca, ih1]
      · intro nm hmem
        rw [button_press_reports, hca] at hmem
        obtain ⟨a', ha', h1, h2⟩ := ih2 nm hmem
        exact ⟨a', List.mem_cons_of_mem _ ha', h1, h2⟩
      · intro a' ha' nm h1 h2
        rcases List.mem_cons.mp ha' with h | h
        · subst h; rw [hca] at h1; exact absurd h1 (by simp)
        · rw [button_press_reports, hca]
          exact ih3 a' h nm h1 h2
    | some nm0 =>
      by_cases hin : inside a.f x y
      · refine ⟨?_, ?_, ?_⟩
        · simp [button_press_reports, hca, hin, ih1]
        · intro nm hmem
          rw [button_press_reports, hca] at hmem
          simp only [hin, if_true, List.mem_cons] at hmem
          rcases hmem with h | h
          · exact ⟨a, List.mem_cons_self .., hca.trans (by rw [h]), hin⟩
          · obtain ⟨a', ha', h1, h2⟩ := ih2 nm h
            exact ⟨a', List.mem_cons_of_mem _ ha', h1, h2⟩
        · intro a' ha' nm h1 h2
          rw [button_press_reports, hca]
          simp only [hin, if_true, List.mem_cons]
          rcases List.mem_cons.mp ha' with h | h
          · subst h
            left
            rw [hca] at h1
            exact (Option.some.injEq .. ).mp h1.symm
          · right
            exact ih3 a' h nm h1 h2
      · refine ⟨?_, ?_, ?_⟩
        · simp [button_press_reports, hca, hin, ih1]
        · intro nm hmem
          rw [button_press_reports, hca] at hmem
          simp only [hin, if_false] at hmem
          obtain ⟨a', ha', h1, h2⟩ := ih2 nm hmem
          exact ⟨a', List.mem_cons_of_mem _ ha', h1, h2⟩
        · intro a' ha' nm h1 h2
          rcases List.mem_cons.mp ha' with h | h
          · subst h; exact absurd h2 (by simp [hin])
          · rw [button_press_reports, hca]
            simp only [hin, if_false]
            exact ih3 a' h nm h1 h2

set_option maxRecDepth 100000 in
/-- C2, witness for the corrected claim at a concrete action list. -/
theorem c2_hit_test_reports_all_witness :
    ∃ a, a ∈ [act_a, act_b] ∧ a.ca_name = some "b" ∧ inside a.f 5 5 = true :=
  (c2_hit_test_reports_all [act_a, act_b] 5 5).2.1 "b"
    (by with_unfolding_all decide)

set_option maxRecDepth 100000 in
/-- C3 (code_bug): an argument with trailing non-numeric characters or an
empty argument does NOT abort evaluation.  flex_strtof and flex_strtoi print
the invalid-number diagnostic on the not-fully-consumed path (the Bool true
below) but are missing the exit(1) every sibling check performs, so they
return the partially-parsed strtof/strtol value (0 for abc and the empty
string, 12 for 12x) and evaluation continues: a grow op with argument abc
succeeds, leaving grow = 0.  Only the range checks abort, as the last
conjunct shows for a negative grow. -/
theorem c3_invalid_number_not_fatal :
    flex_strtof "abc" 0 none = .ok (0, true)
    ∧ flex_strtof "" 0 none = .ok (0, true)
    ∧ flex_strtoi "12x" 0 INT_MAX = .ok (12, true)
    ∧ eval_op ext0 (eval_state_init 100 20) { type := .OP_GROW, arg := "abc" }
        = .ok (eval_state_init 100 20, none)
    ∧ flex_strtof "-3" 0 none = .error .InvalidNumberError := by
  refine ⟨?_, ?_, ?_, ?_, ?_⟩ <;> with_unfolding_all rfl

set_option maxRecDepth 100000 in
/-- C4 (code_bug): a staged align-self is NOT reset when a sized node
consumes it (the source line has a TODO noting the missing reset), so after
one align-self command both subsequently created leaves carry center, where
the claim requires the second to be back at the default auto. -/
theorem c4_align_self_not_reset :
    (eval_line ext0 100 20
        [{ type := .OP_ALIGN_SELF, arg := "center" },
         { type := .OP_TEXT, arg := "A" },
         { type := .OP_TEXT, arg := "B" }]).map
      (fun ec => ec.items.map flex_item_model.align_self)
    = .ok [.FLEX_ALIGN_CENTER, .FLEX_ALIGN_CENTER]
    ∧ flex_align.FLEX_ALIGN_CENTER ≠ flex_align.FLEX_ALIGN_AUTO := by
  constructor
  · with_unfolding_all rfl
  · decide

set_option maxRecDepth 100000 in
/-- C5, counterexample: an explicit grow of 0 staged before a rule is NOT
kept; the rule leaf gets grow 10, because the source tests the staged value
against 0.0 rather than whether a grow was set explicitly. -/
theorem c5_counterexample :
    (eval_line ext0 100 20
        [{ type := .OP_GROW, arg := "0" }, { type := .OP_RULE, arg := "" }]).map
      (fun ec => ec.items.map flex_item_model.grow)
    = .ok [some 10]
    ∧ some (10 : ℚ) ≠ some (0 : ℚ) := by
  constructor
  · with_unfolding_all rfl
  · with_unfolding_all decide

/-- C5 (corrected): a rule leaf gets grow 10.0 exactly when the staged grow
is 0.0 at the moment the rule is evaluated, whether that 0.0 is the default
or was set explicitly; any nonzero staged grow is kept.  The staged grow is
reset to 0 afterwards either way. -/
theorem c5_rule_grow_default (ext : Ext) (ec : eval_ctx) (arg : String)
    (h : ec.st.ca_name = none) :
    ∃ r it, eval_line_step ext ec { type := .OP_RULE, arg := arg } = .ok (r, some it)
      ∧ it.grow = some (if ec.st.grow = 0 then 10 else ec.st.grow)
      ∧ r.st.grow = 0 := by
  by_cases hg : ec.st.grow = 0 <;>
    simp [eval_line_step, eval_op, h, hg, op_rule] <;>
    exact ⟨_, _, ⟨rfl, rfl⟩, rfl, rfl⟩

/-- C5, witness for the corrected claim: at the start-of-line state the
staged grow is the default 0, so the rule leaf gets grow 10. -/
theorem c5_rule_grow_default_witness :
    ∃ r it, eval_line_step ext0 ec0 { type := .OP_RULE, arg := "" } = .ok (r, some it)
      ∧ it.grow = some (if ec0.st.grow = 0 then 10 else ec0.st.grow)
      ∧ r.st.grow = 0 :=
  c5_rule_grow_default ext0 ec0 "" rfl

/-- C8 (code_bug): the line-length overflow test of parse_main never fires
on any input whatsoever, because the sentinel byte is stored after fgets and
immediately compared: buf[sizeof buf - 1] = 'x' makes the following
buf[sizeof buf - 1] == '\0' test constantly false.  In particular a line
exceeding the maximum length does not terminate the process. -/
theorem c8_overflow_check_never_fires (input : List Char) (junk : Char) :
    parse_main_overflow_check input junk = false := by
  have hst := fgets_store_len_le input (MAX_LINE_LEN - 1)
  unfold parse_main_overflow_check
  have hb : (fgets_store input (MAX_LINE_LEN - 1)
      ++ Char.ofNat 0
        :: List.replicate (MAX_LINE_LEN - 1 - (fgets_store input (MAX_LINE_LEN - 1)).length) junk).length
      = MAX_LINE_LEN := by
    simp only [List.length_append, List.length_cons, List.length_replicate]
    unfold MAX_LINE_LEN at hst ⊢
    omega
  have hget : ((fgets_store input (MAX_LINE_LEN - 1)
      ++ Char.ofNat 0
        :: List.replicate (MAX_LINE_LEN - 1 - (fgets_store input (MAX_LINE_LEN - 1)).length) junk).set
          (MAX_LINE_LEN - 1) 'x').getD (MAX_LINE_LEN - 1) junk = 'x' := by
    apply getD_set_self
    rw [hb]
    unfold MAX_LINE_LEN
    omega
  simp only [parse_main_overflow_check]
  rw [hget]
  rfl

/-- C9 (confirmed): evaluating a rule while a clickable-area name is staged
fails with the invalid-combination error, before any leaf or act is
appended, for every evaluator state with a staged name. -/
theorem c9_rule_clickable_rejected (ext : Ext) (ec : eval_ctx) (arg nm : String)
    (h : ec.st.ca_name = some nm) :
    eval_line_step ext ec { type := .OP_RULE, arg := arg }
      = .error .InvalidCombinationError := by
  simp [eval_line_step, eval_op, h]

/-- C9, witness: the scenario of the spec, a ca command then a rule. -/
theorem c9_rule_clickable_rejected_witness :
    eval_line_step ext0
      { st := { eval_state_init 100 20 with ca_name := some "btn" },
        b := [], items := [] }
      { type := .OP_RULE, arg := "" } = .error .InvalidCombinationError :=
  c9_rule_clickable_rejected ext0
    { st := { eval_state_init 100 20 with ca_name := some "btn" },
      b := [], items := [] } "" "btn" rfl

set_option maxRecDepth 100000 in
/-- C6 (confirmed): a 3-hex-digit hash literal parses identically to the
8-digit literal obtained by expanding each nibble by 0x11 and appending full
alpha; a 6-digit literal parses identically to itself with full alpha
appended; an 8-digit literal parses to the literal RGBA with each byte
divided by 255, all four channels lying in [0, 1]; and a hash literal made
of hex digits of any other count is the fatal invalid-color error. -/
theorem c6_parse_color_hex (named : String → Option (Nat × Nat × Nat))
    (c1 c2 c3 c4 c5 c6 c7 c8 : Char) (d1 d2 d3 d4 d5 d6 d7 d8 : Nat)
    (h1 : hex_val c1 = some d1) (h2 : hex_val c2 = some d2)
    (h3 : hex_val c3 = some d3) (h4 : hex_val c4 = some d4)
    (h5 : hex_val c5 = some d5) (h6 : hex_val c6 = some d6)
    (h7 : hex_val c7 = some d7) (h8 : hex_val c8 = some d8) :
    parse_color named ⟨['#', c1, c2, c3]⟩
      = parse_color named ⟨['#', c1, c1, c2, c2, c3, c3, 'f', 'f']⟩
    ∧ parse_color named ⟨['#', c1, c2, c3, c4, c5, c6]⟩
      = parse_color named ⟨['#', c1, c2, c3, c4, c5, c6, 'f', 'f']⟩
    ∧ parse_color named ⟨['#', c1, c2, c3, c4, c5, c6, c7, c8]⟩
      = .ok { r := ((16 * d1 + d2 : ℕ) : ℚ) / 255,
              g := ((16 * d3 + d4 : ℕ) : ℚ) / 255,
              b := ((16 * d5 + d6 : ℕ) : ℚ) / 255,
              a := ((16 * d7 + d8 : ℕ) : ℚ) / 255 }
    ∧ rgba_in_unit { r := ((16 * d1 + d2 : ℕ) : ℚ) / 255,
                     g := ((16 * d3 + d4 : ℕ) : ℚ) / 255,
                     b := ((16 * d5 + d6 : ℕ) : ℚ) / 255,
                     a := ((16 * d7 + d8 : ℕ) : ℚ) / 255 }
    ∧ (∀ s : List Char, (∀ c ∈ s, (hex_val c).isSome = true) →
        ¬(s.length = 3 ∨ s.length = 6 ∨ s.length = 8) →
        parse_color named ⟨'#' :: s⟩ = .error .InvalidColorError) := by
  have hU : ULONG_MAX = 18446744073709551615 := by norm_num [ULONG_MAX]
  have b1 := hex_val_lt _ _ h1
  have b2 := hex_val_lt _ _ h2
  have b3 := hex_val_lt _ _ h3
  have b4 := hex_val_lt _ _ h4
  have b5 := hex_val_lt _ _ h5
  have b6 := hex_val_lt _ _ h6
  have b7 := hex_val_lt _ _ h7
  have b8 := hex_val_lt _ _ h8
  have hf : hex_val 'f' = some 15 := by decide
  refine ⟨?_, ?_, ?_, ?_, ?_⟩
  · simp only [parse_color, String.toList, strtoul_hex, strtoul_hex_go,
      h1, h2, h3, hf, hU, List.length_cons, List.length_nil]
    have m3 : min ((((0 : ℕ) * 16 + d1) * 16 + d2) * 16 + d3) 18446744073709551615
        = ((0 * 16 + d1) * 16 + d2) * 16 + d3 := Nat.min_eq_left (by omega)
    have m8 : min (((((((((0 : ℕ) * 16 + d1) * 16 + d1) * 16 + d2) * 16 + d2)
              * 16 + d3) * 16 + d3) * 16 + 15) * 16 + 15) 18446744073709551615
        = ((((((((0 * 16 + d1) * 16 + d1) * 16 + d2) * 16 + d2)
              * 16 + d3) * 16 + d3) * 16 + 15) * 16 + 15) := Nat.min_eq_left (by omega)
    rw [m3, m8]
    split_ifs
    all_goals try (exfalso; omega)
    all_goals
      exact congrArg (fun n => Except.ok (rgba_of_packed n)) (by unfold expand3; omega)
  · simp only [parse_color, String.toList, strtoul_hex, strtoul_hex_go,
      h1, h2, h3, h4, h5, h6, hf, hU, List.length_cons, List.length_nil]
    have m6 : min ((((((((0 : ℕ) * 16 + d1) * 16 + d2) * 16 + d3)
              * 16 + d4) * 16 + d5) * 16 + d6)) 18446744073709551615
        = (((((((0 * 16 + d1) * 16 + d2) * 16 + d3)
              * 16 + d4) * 16 + d5) * 16 + d6)) := Nat.min_eq_left (by omega)
    have m8 : min (((((((((0 : ℕ) * 16 + d1) * 16 + d2) * 16 + d3)
              * 16 + d4) * 16 + d5) * 16 + d6) * 16 + 15) * 16 + 15) 18446744073709551615
        = ((((((((0 * 16 + d1) * 16 + d2) * 16 + d3)
              * 16 + d4) * 16 + d5) * 16 + d6) * 16 + 15) * 16 + 15) := Nat.min_eq_left (by omega)
    rw [m6, m8]
    split_ifs
    all_goals try (exfalso; omega)
    all_goals exact congrArg (fun n => Except.ok (rgba_of_packed n)) (by omega)
  · rw [← rgba_of_packed_digits (16 * d1 + d2) (16 * d3 + d4) (16 * d5 + d6)
      (16 * d7 + d8) (by omega) (by omega) (by omega) (by omega)]
    simp only [parse_color, String.toList, strtoul_hex, strtoul_hex_go,
      h1, h2, h3, h4, h5, h6, h7, h8, hU, List.length_cons, List.length_nil]
    have m8 : min (((((((((0 : ℕ) * 16 + d1) * 16 + d2) * 16 + d3)
              * 16 + d4) * 16 + d5) * 16 + d6) * 16 + d7) * 16 + d8) 18446744073709551615
        = ((((((((0 * 16 + d1) * 16 + d2) * 16 + d3)
              * 16 + d4) * 16 + d5) * 16 + d6) * 16 + d7) * 16 + d8) := Nat.min_eq_left (by omega)
    rw [m8]
    split_ifs
    all_goals try (exfalso; omega)
    all_goals exact congrArg (fun n => Except.ok (rgba_of_packed n)) (by omega)
  · rw [← rgba_of_packed_digits (16 * d1 + d2) (16 * d3 + d4) (16 * d5 + d6)
      (16 * d7 + d8) (by omega) (by omega) (by omega) (by omega)]
    exact rgba_of_packed_in_unit _
  · intro s hall hlen
    rcases hgo : strtoul_hex_go s 0 0 with ⟨v, k⟩
    have hk : k = s.length := by
      have := strtoul_hex_go_all_hex s 0 0 hall
      rw [hgo] at this
      simpa using this
    simp only [parse_color, String.toList, strtoul_hex, hgo]
    split_ifs
    all_goals try (exfalso; omega)
    all_goals rfl

/-- C6, witness at the literal 123 digits: the 3-digit literal equals its
expanded 8-digit form. -/
theorem c6_parse_color_hex_witness :
    parse_color ext0.named_color ⟨['#', '1', '2', '3']⟩
      = parse_color ext0.named_color ⟨['#', '1', '1', '2', '2', '3', '3', 'f', 'f']⟩ :=
  (c6_parse_color_hex ext0.named_color '1' '2' '3' '4' '5' '6' '7' '8'
    1 2 3 4 5 6 7 8 (by decide) (by decide) (by decide) (by decide)
    (by decide) (by decide) (by decide) (by decide)).1

/-- C7 (confirmed): a line evaluates without error only if its open count
equals its close count and no prefix closes more containers than were
opened; conversely a balanced line never fails with the unbalanced-brace
error (it passes both the per-close check and the end-of-line check); a
close op at root depth is the unbalanced-brace error, and finishing the op
loop away from root depth makes the whole line the unbalanced-brace
error. -/
theorem c7_brace_balance (ext : Ext) (w h : ℚ) (ops : List op) :
    (∀ r, eval_line ext w h ops = .ok r →
        count_open ops = count_close ops ∧
        ∀ n, count_close (ops.take n) ≤ count_open (ops.take n)) ∧
    ((count_open ops = count_close ops ∧
        ∀ n, count_close (ops.take n) ≤ count_open (ops.take n)) →
      ∀ e, eval_line ext w h ops = .error e → e ≠ .UnbalancedBraceError) ∧
    (∀ (ec : eval_ctx) (arg : String), ec.st.root.length ≤ 1 →
      eval_line_step ext ec { type := .OP_CLOSE, arg := arg }
        = .error .UnbalancedBraceError) ∧
    (∀ ec', eval_ops ext { st := eval_state_init w h, b := [], items := [] } ops
        = .ok ec' → ec'.st.root.length ≠ 1 →
      eval_line ext w h ops = .error .UnbalancedBraceError) := by
  have hinit : ({ st := eval_state_init w h, b := [], items := [] }
      : eval_ctx).st.root.length = 1 := rfl
  refine ⟨?_, ?_, ?_, ?_⟩
  · intro r hr
    simp only [eval_line] at hr
    cases he : eval_ops ext { st := eval_state_init w h, b := [], items := [] } ops with
    | error e =>
      rw [he] at hr
      exact Except.noConfusion hr
    | ok ec' =>
      rw [he] at hr
      have hr2 : (match ec'.st.root with
          | [_] => (Except.ok ec' : Except Err eval_ctx)
          | _ => .error .UnbalancedBraceError) = .ok r := hr
      have hA := eval_ops_ok_len ext ops _ ec' (by omega) he
      rcases hroot : ec'.st.root with _ | ⟨c, cs⟩
      · rw [hroot] at hr2
        exact Except.noConfusion hr2
      · rcases cs with _ | ⟨c2, cs2⟩
        · have hlen : ec'.st.root.length = 1 := by rw [hroot]; rfl
          rw [hinit] at hA
          rw [hlen] at hA
          exact ⟨by omega, fun n => by have := hA.2 n; omega⟩
        · rw [hroot] at hr2
          exact Except.noConfusion hr2
  · rintro ⟨hcnt, hpre⟩ e he
    simp only [eval_line] at he
    cases hev : eval_ops ext { st := eval_state_init w h, b := [], items := [] } ops with
    | error e0 =>
      rw [hev] at he
      have hB := eval_ops_counts ext ops
        { st := eval_state_init w h, b := [], items := [] }
        (by omega) (by omega)
        (fun n => by have := hpre n; omega)
      have hne := hB.1 e0 hev
      injection he with h2
      subst h2
      exact hne
    | ok ec' =>
      rw [hev] at he
      have hB := eval_ops_counts ext ops
        { st := eval_state_init w h, b := [], items := [] }
        (by omega) (by omega)
        (fun n => by have := hpre n; omega)
      have hlen := hB.2 ec' hev
      have he2 : (match ec'.st.root with
          | [_] => (Except.ok ec' : Except Err eval_ctx)
          | _ => .error .UnbalancedBraceError) = .error e := he
      rcases hroot : ec'.st.root with _ | ⟨c, cs⟩
      · rw [hroot] at hlen
        exact absurd hlen (by simp)
      · rcases cs with _ | ⟨c2, cs2⟩
        · rw [hroot] at he2
          exact Except.noConfusion he2
        · rw [hroot] at hlen
          simp at hlen
  · exact fun ec arg hle => eval_step_close_err ext ec arg hle
  · intro ec' hev hne
    simp only [eval_line]
    rw [hev]
    show (match ec'.st.root with
        | [_] => (Except.ok ec' : Except Err eval_ctx)
        | _ => .error .UnbalancedBraceError) = .error .UnbalancedBraceError
    rcases hroot : ec'.st.root with _ | ⟨c, cs⟩
    · rfl
    · rcases cs with _ | ⟨c2, cs2⟩
      · exact absurd (by rw [hroot]; rfl) hne
      · rfl

/-- C7, witness: the balanced open-close line evaluates successfully, and
the theorem recovers equal counts and the prefix inequality for it. -/
theorem c7_brace_balance_witness :
    count_open ops_oc = count_close ops_oc ∧
    ∀ n, count_close (ops_oc.take n) ≤ count_open (ops_oc.take n) :=
  (c7_brace_balance ext0 10 10 ops_oc).1 ec_oc (by with_unfolding_all rfl)

set_option maxRecDepth 100000 in
/-- C10 (code_bug): the claim that every line within the maximum line
length stays inside the fixed 75-op and 50-act arrays is false.  A line of
76 open braces is far below the 8192-byte line bound yet tokenizes to 77
ops, so parse_main writes ops[75] and ops[76] past the end of struct op
ops[75]; a line of 51 text commands is also far below the bound yet
evaluates to 52 acts, so eval_line writes b[50] and b[51] past the end of
struct act b[50]. -/
theorem c10_fixed_buffers_overflow :
    brace_line.length ≤ MAX_LINE_LEN - 1 ∧
    (tokenize brace_line).map List.length = .ok 77 ∧
    OPS_CAP < 77 ∧
    cmd_line.length ≤ MAX_LINE_LEN - 1 ∧
    ((tokenize cmd_line).bind
      (fun ops => (eval_line ext0 100 20 ops).map (fun ec => ec.b.length)))
      = .ok 52 ∧
    ACTS_CAP < 52 := by
  refine ⟨by decide, ?_, by decide, by decide, ?_, by decide⟩
  · with_unfolding_all rfl
  · with_unfolding_all rfl

end Xf
